import Mathlib

/-!
Shallow embedding of the analytics backend (backend/app.py) of the
AI-Based-Analytical-Dashboard repository, together with proofs about the
performance scorer, the grade ladder, the recommendation generator and the
two sentiment pipelines.

Numeric modelling: the Python code computes with floats; here every numeric
quantity is a rational number, and the built-in round(x, d) (banker
rounding to d decimal places) is modelled exactly on the rationals by
roundTo below.  Fallible Python code (ZeroDivisionError, ValueError,
KeyError) is modelled with Option: none is a raised exception.
-/

/-- Computable floor of a rational, mirroring Mathlib floor on the rationals
(integer division of numerator by denominator). -/
def rfloor (q : ℚ) : ℤ := q.num / q.den

/-- Round half to even on the rationals: the rounding mode of the Python
built-in round. -/
def rhe (x : ℚ) : ℤ :=
  if x - rfloor x < 1/2 then rfloor x
  else if 1/2 < x - rfloor x then rfloor x + 1
  else if rfloor x % 2 = 0 then rfloor x else rfloor x + 1

/-- Model of the Python built-in round(x, d): round half to even at the
d-th decimal place. -/
def roundTo (d : ℕ) (x : ℚ) : ℚ := (rhe (x * 10 ^ d) : ℚ) / 10 ^ d

/-! ## Data model (backend/app.py, YouTubeAnalyticsEngine) -/

/-- The currentVideo snapshot of YouTubeAnalyticsEngine.base_data
(app.py, _initialize_base_data / update_channel_data).  Count fields are
natural numbers; clickThroughRate is the stored percentage. -/
structure CurrentVideo where
  views : ℕ
  likes : ℕ
  dislikes : ℕ
  comments : ℕ
  shares : ℕ
  duration : String
  avgViewDuration : String
  clickThroughRate : ℚ
deriving DecidableEq

/-- The fields of current_channel_data that the scorer reads
(subscriberCount, viewCount, videoCount). -/
structure ChannelData where
  subscriberCount : ℕ
  viewCount : ℕ
  videoCount : ℕ
deriving DecidableEq

/-- The currentVideo of _initialize_base_data (app.py lines 329-349). -/
def baseVideo : CurrentVideo :=
  { views := 156789, likes := 12456, dislikes := 234, comments := 1876,
    shares := 892, duration := "24:35", avgViewDuration := "18:42",
    clickThroughRate := 8.7 }

/-- Split a character list on the colon character, mirroring the Python
str.split used by _parse_duration. -/
def splitOnColon : List Char → List (List Char)
  | [] => [[]]
  | c :: rest =>
    if c = ':' then [] :: splitOnColon rest
    else
      match splitOnColon rest with
      | h :: t => (c :: h) :: t
      | [] => [[c]]

/-- One step of reading a decimal numeral left to right. -/
def digitStep (acc : Option ℕ) (c : Char) : Option ℕ :=
  match acc with
  | none => none
  | some n => if c.isDigit then some (n * 10 + (c.toNat - 48)) else none

/-- Value of a plain decimal numeral, mirroring the Python int conversion
on the digit strings that durations are made of; none models the ValueError
raised on an empty or non-numeric part. -/
def digitsToNat? (cs : List Char) : Option ℕ :=
  if cs.isEmpty then none else cs.foldl digitStep (some 0)

/-- _parse_duration (app.py lines 436-443): split on a colon, two parts are
minutes:seconds, three parts are hours:minutes:seconds, any other shape
returns 0 without parsing the parts. -/
def parseDuration (s : String) : Option ℕ :=
  match splitOnColon s.data with
  | [a, b] =>
      match digitsToNat? a, digitsToNat? b with
      | some x, some y => some (x * 60 + y)
      | _, _ => none
  | [a, b, c] =>
      match digitsToNat? a, digitsToNat? b, digitsToNat? c with
      | some x, some y, some z => some (x * 3600 + y * 60 + z)
      | _, _, _ => none
  | _ => some 0

/-- Result record of calculate_engagement_metrics (app.py lines 412-434). -/
structure EngagementMetrics where
  engagementRate : ℚ
  likeToDislikeRatio : ℚ
  watchTimePercentage : ℚ
  totalEngagements : ℕ
  avgViewDurationSeconds : ℕ
deriving DecidableEq

/-- calculate_engagement_metrics (app.py lines 412-434).  none models the
ZeroDivisionError raised when views = 0 or when the parsed duration is 0,
and the ValueError from an unparseable duration string. -/
def calculateEngagementMetrics (cv : CurrentVideo) : Option EngagementMetrics :=
  let total_engagements := cv.likes + cv.comments + cv.shares
  if cv.views = 0 then none
  else
    let engagement_rate : ℚ := ((total_engagements : ℚ) / (cv.views : ℚ)) * 100
    let like_dislike_ratio : ℚ :=
      if 0 < cv.dislikes then (cv.likes : ℚ) / (cv.dislikes : ℚ) else 0
    match parseDuration cv.duration, parseDuration cv.avgViewDuration with
    | some duration_seconds, some avg_duration_seconds =>
      if duration_seconds = 0 then none
      else some
        { engagementRate := roundTo 2 engagement_rate,
          likeToDislikeRatio := roundTo 1 like_dislike_ratio,
          watchTimePercentage :=
            roundTo 1 (((avg_duration_seconds : ℚ) / (duration_seconds : ℚ)) * 100),
          totalEngagements := total_engagements,
          avgViewDurationSeconds := avg_duration_seconds }
    | _, _ => none

/-! ## Performance scorer (app.py, calculate_performance_score)

The four component scores below are the four inline tier computations of
calculate_performance_score (app.py lines 473-527); the benchmark constants
are inlined from the benchmarks dict (lines 456-469). -/

/-- Views performance score (app.py lines 473-488); constants 0.05, 0.02,
0.01 are viral_threshold, good_view_rate, average_view_rate. -/
def viewsScore (views subscribers : ℕ) : ℚ :=
  if 0 < subscribers then
    if (0.05 : ℚ) ≤ (views : ℚ) / (subscribers : ℚ) then
      95 + min 5 (((views : ℚ) / (subscribers : ℚ) - 0.05) * 100)
    else if (0.02 : ℚ) ≤ (views : ℚ) / (subscribers : ℚ) then
      70 + (((views : ℚ) / (subscribers : ℚ) - 0.02) / (0.05 - 0.02)) * 25
    else if (0.01 : ℚ) ≤ (views : ℚ) / (subscribers : ℚ) then
      40 + (((views : ℚ) / (subscribers : ℚ) - 0.01) / (0.02 - 0.01)) * 30
    else min 40 ((views : ℚ) / (subscribers : ℚ) / 0.01 * 40)
  else min 100 ((views : ℚ) / 100000 * 80)

/-- Click-through-rate score (app.py lines 490-501); constants 10, 4, 2 are
excellent_ctr, good_ctr, average_ctr. -/
def ctrScore (ctr : ℚ) : ℚ :=
  if (10 : ℚ) ≤ ctr then 95 + min 5 ((ctr - 10) / 2)
  else if (4 : ℚ) ≤ ctr then 75 + ((ctr - 4) / (10 - 4)) * 20
  else if (2 : ℚ) ≤ ctr then 50 + ((ctr - 2) / (4 - 2)) * 25
  else ctr / 2 * 50

/-- Engagement-rate score (app.py lines 503-514); constants 8, 4, 2 are
excellent_engagement, good_engagement, average_engagement. -/
def engagementScore (engagement_rate : ℚ) : ℚ :=
  if (8 : ℚ) ≤ engagement_rate then 95 + min 5 ((engagement_rate - 8) / 2)
  else if (4 : ℚ) ≤ engagement_rate then 75 + ((engagement_rate - 4) / (8 - 4)) * 20
  else if (2 : ℚ) ≤ engagement_rate then 50 + ((engagement_rate - 2) / (4 - 2)) * 25
  else engagement_rate / 2 * 50

/-- Watch-time/retention score (app.py lines 516-527); constants 70, 50, 30
are excellent_retention, good_retention, average_retention. -/
def watchTimeScore (retention_percentage : ℚ) : ℚ :=
  if (70 : ℚ) ≤ retention_percentage then 95 + min 5 ((retention_percentage - 70) / 10)
  else if (50 : ℚ) ≤ retention_percentage then
    75 + ((retention_percentage - 50) / (70 - 50)) * 20
  else if (30 : ℚ) ≤ retention_percentage then
    50 + ((retention_percentage - 30) / (50 - 30)) * 25
  else retention_percentage / 30 * 50

/-- The dynamic weight preset picked from the channel maturity factor
(app.py lines 532-553). -/
structure Weights where
  views : ℚ
  engagement_rate : ℚ
  watch_time : ℚ
  click_through_rate : ℚ

/-- Weight selection by channel maturity (app.py lines 532-553). -/
def weightsFor (channel_maturity_factor : ℚ) : Weights :=
  if (0.8 : ℚ) < channel_maturity_factor then
    { views := 0.20, engagement_rate := 0.35, watch_time := 0.30, click_through_rate := 0.15 }
  else if (0.4 : ℚ) < channel_maturity_factor then
    { views := 0.25, engagement_rate := 0.30, watch_time := 0.25, click_through_rate := 0.20 }
  else
    { views := 0.30, engagement_rate := 0.25, watch_time := 0.25, click_through_rate := 0.20 }

/-- _get_performance_grade (app.py lines 648-671). -/
def getPerformanceGrade (score : ℚ) : String :=
  if 90 ≤ score then "A+"
  else if 85 ≤ score then "A"
  else if 80 ≤ score then "A-"
  else if 75 ≤ score then "B+"
  else if 70 ≤ score then "B"
  else if 65 ≤ score then "B-"
  else if 60 ≤ score then "C+"
  else if 55 ≤ score then "C"
  else if 50 ≤ score then "C-"
  else if 40 ≤ score then "D"
  else "F"

/-- Rank of a grade on the ladder, A+ highest; used to state monotonicity. -/
def gradeRank : String → ℕ
  | "A+" => 10
  | "A" => 9
  | "A-" => 8
  | "B+" => 7
  | "B" => 6
  | "B-" => 5
  | "C+" => 4
  | "C" => 3
  | "C-" => 2
  | "D" => 1
  | _ => 0

/-- The fields of the dict returned by calculate_performance_score
(app.py lines 589-612).  The trends field is omitted here: it is sampled
from the process-wide random source and does not influence any other field;
the recommendation generator below takes the sampled trends as an explicit
parameter instead. -/
structure PerformanceResult where
  overallScore : ℚ
  scoreViews : ℚ
  scoreEngagement : ℚ
  scoreWatchTime : ℚ
  scoreCtr : ℚ
  grade : String
  viewRate : ℚ
  bonusConsistency : ℚ
  bonusViral : ℚ
  channelMaturity : ℚ
deriving DecidableEq

/-- Body of calculate_performance_score (app.py lines 445-612) after the
engagement metrics have been computed.  When channel data is absent the
source falls back to 45230 subscribers and 150 videos (lines 451-453). -/
def perfFrom (cv : CurrentVideo) (chan : Option ChannelData)
    (em : EngagementMetrics) : PerformanceResult :=
    let channel_subscribers : ℕ :=
      match chan with | some c => c.subscriberCount | none => 45230
    let video_count : ℕ := match chan with | some c => c.videoCount | none => 150
    let views_score := viewsScore cv.views channel_subscribers
    let ctr_score := ctrScore cv.clickThroughRate
    let engagement_score := engagementScore em.engagementRate
    let watch_time_score := watchTimeScore em.watchTimePercentage
    let channel_maturity_factor : ℚ := min 1 ((video_count : ℚ) / 100)
    let weights := weightsFor channel_maturity_factor
    let performance_score :=
      views_score * weights.views + engagement_score * weights.engagement_rate +
      watch_time_score * weights.watch_time + ctr_score * weights.click_through_rate
    let consistency_bonus := min 5 (channel_maturity_factor * 5)
    let viral_bonus : ℚ :=
      if 0 < channel_subscribers then
        let viral_ratio : ℚ := (cv.views : ℚ) / (channel_subscribers : ℚ)
        if (0.1 : ℚ) < viral_ratio then min 10 ((viral_ratio - 0.1) * 20) else 0
      else 0
    let final_score := min 100 (performance_score + consistency_bonus + viral_bonus)
    { overallScore := roundTo 1 final_score,
      scoreViews := roundTo 1 views_score,
      scoreEngagement := roundTo 1 engagement_score,
      scoreWatchTime := roundTo 1 watch_time_score,
      scoreCtr := roundTo 1 ctr_score,
      grade := getPerformanceGrade final_score,
      viewRate := roundTo 3 ((cv.views : ℚ) / ((max channel_subscribers 1 : ℕ) : ℚ) * 100),
      bonusConsistency := roundTo 1 consistency_bonus,
      bonusViral := roundTo 1 viral_bonus,
      channelMaturity := roundTo 1 (channel_maturity_factor * 100) }

/-- calculate_performance_score (app.py lines 445-612).  none propagates a
failure of calculate_engagement_metrics. -/
def calculatePerformanceScore (cv : CurrentVideo) (chan : Option ChannelData) :
    Option PerformanceResult :=
  (calculateEngagementMetrics cv).map (perfFrom cv chan)

/-- Numeric rank of the grade that getPerformanceGrade assigns, written as
the same threshold chain; used to prove monotonicity of the ladder. -/
def gradeIdx (score : ℚ) : ℕ :=
  if 90 ≤ score then 10 else if 85 ≤ score then 9 else if 80 ≤ score then 8
  else if 75 ≤ score then 7 else if 70 ≤ score then 6 else if 65 ≤ score then 5
  else if 60 ≤ score then 4 else if 55 ≤ score then 3 else if 50 ≤ score then 2
  else if 40 ≤ score then 1 else 0

/-! ## Lexicon sentiment engine (app.py, SentimentAnalyzer) -/

/-- The polarity-score record of the VADER sentiment library; the library
itself is an external dependency, so its scorer enters the model as an
opaque function parameter of type String to SentimentScores. -/
structure SentimentScores where
  pos : ℚ
  neu : ℚ
  neg : ℚ
  compound : ℚ
deriving DecidableEq

/-- The whitespace class of the regular expression engine used by
preprocess_text (space, tab, newline, carriage return, vertical tab,
form feed). -/
def isPySpace (c : Char) : Bool :=
  c == ' ' || c == '\t' || c == '\n' || c == '\r' || c == '\x0b' || c == '\x0c'

/-- Collapse every maximal whitespace run to one space: the
re.sub of a whitespace-plus pattern with a single space in preprocess_text
(app.py line 932). -/
def collapseWs : List Char → List Char
  | [] => []
  | c :: rest =>
    if isPySpace c then
      match rest with
      | d :: _ => if isPySpace d then collapseWs rest else ' ' :: collapseWs rest
      | [] => [' ']
    else c :: collapseWs rest

/-- The character class of the URL pattern in preprocess_text (app.py line
934): alphanumerics, the byte range from dollar to underscore (which covers
the digit, uppercase and symbol alternates of the pattern), and the
exclamation mark. -/
def isUrlChar (c : Char) : Bool :=
  c.isAlphanum || (decide (36 ≤ c.toNat) && decide (c.toNat ≤ 95)) || c == '!'

/-- Remove every URL match (http or https scheme followed by at least one
URL character) from the text: the second re.sub of preprocess_text
(app.py line 934).  Scanning is left to right and each match is consumed
greedily, as re.sub does. -/
def removeUrls : List Char → List Char
  | [] => []
  | c :: rest =>
    if ("https://".data).isPrefixOf (c :: rest) then
      let r := (c :: rest).drop 8
      if (match r with | d :: _ => isUrlChar d | [] => false) then
        removeUrls (r.dropWhile fun ch => isUrlChar ch)
      else c :: removeUrls rest
    else if ("http://".data).isPrefixOf (c :: rest) then
      let r := (c :: rest).drop 7
      if (match r with | d :: _ => isUrlChar d | [] => false) then
        removeUrls (r.dropWhile fun ch => isUrlChar ch)
      else c :: removeUrls rest
    else c :: removeUrls rest
termination_by l => l.length
decreasing_by
  all_goals simp_wf
  all_goals
    first
    | omega
    | (have h : (List.dropWhile (fun ch => isUrlChar ch) (List.drop 7 rest)).length ≤
          (List.drop 7 rest).length :=
        ((List.dropWhile_suffix (fun ch => isUrlChar ch)).sublist).length_le
       simp [List.length_drop] at h ⊢
       omega)
    | (have h : (List.dropWhile (fun ch => isUrlChar ch) (List.drop 6 rest)).length ≤
          (List.drop 6 rest).length :=
        ((List.dropWhile_suffix (fun ch => isUrlChar ch)).sublist).length_le
       simp [List.length_drop] at h ⊢
       omega)

/-- Collapse runs of two or more of the given character to a single one:
the excessive-punctuation re.sub calls of preprocess_text (app.py lines
936-937). -/
def collapseRuns (ch : Char) : List Char → List Char
  | [] => []
  | c :: rest =>
    if c == ch && (match rest with | d :: _ => d == ch | [] => false) then
      collapseRuns ch rest
    else c :: collapseRuns ch rest

/-- preprocess_text (app.py lines 926-939): empty text passes through;
otherwise strip, lowercase, collapse whitespace, remove URLs, collapse
exclamation and question runs. -/
def preprocessText (text : String) : String :=
  if text = "" then ""
  else
    let stripped :=
      (((text.data.dropWhile fun c => isPySpace c).reverse.dropWhile
        fun c => isPySpace c)).reverse
    let lowered := stripped.map Char.toLower
    let t := collapseWs lowered
    let t := removeUrls t
    let t := collapseRuns '!' t
    let t := collapseRuns '?' t
    String.mk t

/-- random.uniform on an interval, fed with a unit draw from the random
source. -/
def uniformDraw (a b u : ℚ) : ℚ := a + (b - a) * u

/-- analyze_sentiment (app.py lines 941-954): with no analyzer or empty
text the scores are drawn from the process-wide random source (modelled by
rng); otherwise the preprocessed text is scored by the lexicon. -/
def analyzeSentiment (available : Bool) (polarity : String → SentimentScores)
    (rng : ℕ → ℚ) (text : String) : SentimentScores :=
  if available = false ∨ text = "" then
    { pos := uniformDraw 0.1 0.9 (rng 0),
      neu := uniformDraw 0.1 0.3 (rng 1),
      neg := uniformDraw 0.0 0.2 (rng 2),
      compound := uniformDraw (-0.5) 0.8 (rng 3) }
  else polarity (preprocessText text)

/-- _classify_sentiment (app.py lines 1020-1027). -/
def classifySentiment (compound_score : ℚ) : String :=
  if (0.05 : ℚ) ≤ compound_score then "positive"
  else if compound_score ≤ -0.05 then "negative"
  else "neutral"

/-- Length of comment.strip(), used by the short-comment filter of
analyze_comments (app.py line 968). -/
def strippedLen (c : String) : ℕ :=
  ((c.data.dropWhile fun ch => isPySpace ch).reverse.dropWhile
    fun ch => isPySpace ch).length

/-- The condition of the continue statement of analyze_comments (app.py
line 968): an empty comment, or one whose stripped text has fewer than 3
characters, is skipped. -/
def skipComment (c : String) : Bool := c == "" || decide (strippedLen c < 3)

/-- Map with the running index, mirroring Python enumerate. -/
def mapWithId {α β : Type} (f : ℕ → α → β) : ℕ → List α → List β
  | _, [] => []
  | i, x :: rest => f i x :: mapWithId f (i + 1) rest

/-- The overview part of the dict built by analyze_comments, together with
the dominant_sentiment summary field (app.py lines 1001-1018).  The
detailed_sentiments list and the most_positive/most_negative entries are
per-comment echoes of the same scores and are not modelled. -/
structure SentimentOverview where
  positive_percentage : ℚ
  neutral_percentage : ℚ
  negative_percentage : ℚ
  overall_rating : ℚ
  total_comments : ℕ
  avg_compound_score : ℚ
  dominant_sentiment : String
deriving DecidableEq

/-- The fixed overview of _get_mock_sentiment_data (app.py lines 1042-1050),
returned whenever no comment survives the filter. -/
def mockSentimentOverview : SentimentOverview :=
  { positive_percentage := 72.3, neutral_percentage := 18.7,
    negative_percentage := 9.0, overall_rating := 4.2, total_comments := 8,
    avg_compound_score := 0.342, dominant_sentiment := "positive" }

/-- analyze_comments (app.py lines 956-1018).  sentOf gives the scores of
the i-th surviving comment: in the source this is analyze_sentiment, whose
mock branch draws fresh random values on every call, so the scores are a
function of the call position as well as of the text. -/
def analyzeComments (sentOf : ℕ → String → SentimentScores)
    (comments : List String) : SentimentOverview :=
  if comments = [] then mockSentimentOverview
  else
    let kept := comments.filter fun c => !(skipComment c)
    let compounds := mapWithId (fun i c => (sentOf i c).compound) 0 kept
    let positive_count := compounds.countP fun cp => decide ((0.05 : ℚ) ≤ cp)
    let negative_count :=
      compounds.countP fun cp => decide (¬((0.05 : ℚ) ≤ cp) ∧ cp ≤ -0.05)
    let neutral_count :=
      compounds.countP fun cp => decide (¬((0.05 : ℚ) ≤ cp) ∧ ¬(cp ≤ -0.05))
    let total_comments := compounds.length
    if total_comments = 0 then mockSentimentOverview
    else
      let positive_pct := ((positive_count : ℚ) / (total_comments : ℚ)) * 100
      let neutral_pct := ((neutral_count : ℚ) / (total_comments : ℚ)) * 100
      let negative_pct := ((negative_count : ℚ) / (total_comments : ℚ)) * 100
      let avg_compound := compounds.sum / (total_comments : ℚ)
      let overall_rating := max 1 (min 5 (3 + avg_compound * 2))
      { positive_percentage := roundTo 1 positive_pct,
        neutral_percentage := roundTo 1 neutral_pct,
        negative_percentage := roundTo 1 negative_pct,
        overall_rating := roundTo 1 overall_rating,
        total_comments := total_comments,
        avg_compound_score := roundTo 3 avg_compound,
        dominant_sentiment :=
          if max neutral_pct negative_pct < positive_pct then "positive"
          else if neutral_pct < negative_pct then "negative" else "neutral" }

/-! ## LLM sentiment pipeline (app.py, LLMSentimentAnalyzer) -/

/-- A per-comment result record of the LLM pipeline (the dicts built by
_parse_gemini_response and _fallback_sentiment). -/
structure SentimentRecord where
  comment_id : String
  comment_text : String
  sentiment : String
  confidence : ℚ
  source : String
deriving DecidableEq

/-- One tuple of the JSON array the LLM is asked for: comment_id, sentiment
and confidence, with the dict-get defaults of _parse_gemini_response
(missing sentiment reads as neutral, missing confidence as 0.5) already
applied and the float conversion of the confidence already done. -/
structure RawRecord where
  comment_id : String
  sentiment : String
  confidence : ℚ
deriving DecidableEq

/-- Outcome of one Gemini batch call as analyze_with_gemini distinguishes
them: a non-200 response (429 included), a 200 response with no candidates,
or a 200 response with a candidate text whose JSON extraction either fails
(none, the exception path of _parse_gemini_response) or yields a record
list. -/
inductive GeminiOutcome where
  | httpError (status : ℕ)
  | noCandidates
  | ok (parsed : Option (List RawRecord))

/-- The comment_N identifiers used by the prompt and the response parser. -/
def mkCommentId (cid : ℕ) : String := "comment_" ++ toString cid

/-- _fallback_sentiment (app.py lines 1583-1611): score the raw comment
with the lexicon when it is available, else return the fixed mock record. -/
def fallbackSentiment (available : Bool) (polarity : String → SentimentScores)
    (comment : String) (cid : ℕ) : SentimentRecord :=
  if available then
    { comment_id := mkCommentId cid, comment_text := comment,
      sentiment :=
        if (0.05 : ℚ) ≤ (polarity comment).compound then "positive"
        else if (polarity comment).compound ≤ -0.05 then "negative"
        else "neutral",
      confidence := |(polarity comment).compound|,
      source := "vader_fallback" }
  else
    { comment_id := mkCommentId cid, comment_text := comment,
      sentiment := "neutral", confidence := 0.5, source := "mock_fallback" }

/-- The str.lower call applied to the sentiment label (ASCII characters,
which is all the three class labels need). -/
def strToLower (s : String) : String := String.mk (s.data.map Char.toLower)

/-- Acceptance of one matched LLM record (app.py lines 1548-1566):
lowercase the sentiment, force it into the three classes, force the
confidence into [0,1] replacing an out-of-range value by 0.5, and round it
to 3 decimals. -/
def acceptRecord (r : RawRecord) (comment : String) (cid : ℕ) : SentimentRecord :=
  let sentiment := strToLower r.sentiment
  let sentiment :=
    if sentiment ≠ "positive" ∧ sentiment ≠ "negative" ∧ sentiment ≠ "neutral"
    then "neutral" else sentiment
  let confidence :=
    if ¬(0 ≤ r.confidence ∧ r.confidence ≤ 1) then (0.5 : ℚ) else r.confidence
  { comment_id := mkCommentId cid, comment_text := comment,
    sentiment := sentiment, confidence := roundTo 3 confidence,
    source := "gemini_api" }

/-- _parse_gemini_response (app.py lines 1525-1581) applied to one batch:
with no extractable JSON every comment of the batch falls back; otherwise
each comment takes the record whose comment_id matches, falling back
per comment when none matches. -/
def parseGeminiResponse (available : Bool) (polarity : String → SentimentScores)
    (parsed : Option (List RawRecord)) (comments : List String)
    (batchStart : ℕ) : List SentimentRecord :=
  match parsed with
  | none =>
      mapWithId (fun i comment =>
        fallbackSentiment available polarity comment (batchStart + i + 1)) 0 comments
  | some gemini_results =>
      mapWithId (fun i comment =>
        match gemini_results.find? (fun r => r.comment_id == mkCommentId (batchStart + i + 1)) with
        | some r => acceptRecord r comment (batchStart + i + 1)
        | none => fallbackSentiment available polarity comment (batchStart + i + 1)) 0 comments

/-- The batch loop of analyze_with_gemini (app.py lines 1441-1499): the
comments are cut into batches of 10; a batch whose call returns non-200 or
has no candidates falls back whole; a 200 response with candidates goes
through the response parser.  oracle gives the outcome of the call for the
batch starting at the given offset. -/
def geminiResults (available : Bool) (polarity : String → SentimentScores)
    (oracle : ℕ → GeminiOutcome) : List String → ℕ → List SentimentRecord
  | [], _ => []
  | c :: rest, batchStart =>
    (match oracle batchStart with
      | GeminiOutcome.ok parsed =>
          parseGeminiResponse available polarity parsed ((c :: rest).take 10) batchStart
      | _ =>
          mapWithId (fun i comment =>
            fallbackSentiment available polarity comment (batchStart + i + 1)) 0
            ((c :: rest).take 10)) ++
    geminiResults available polarity oracle ((c :: rest).drop 10) (batchStart + 10)
termination_by l _ => l.length
decreasing_by
  simp [List.length_drop]
  omega

/-- The overview part of the dict built by _process_llm_results
(app.py lines 1640-1648). -/
structure LLMOverview where
  positive_percentage : ℚ
  neutral_percentage : ℚ
  negative_percentage : ℚ
  overall_rating : ℚ
  total_comments : ℕ
  average_confidence : ℚ
deriving DecidableEq

/-- _process_llm_results (app.py lines 1613-1664): none models the
empty-input error dict.  The sentiment of every record produced by the
pipeline is one of the three classes, matching the keys of the
sentiment_counts dict of the source. -/
def processLLMResults (results : List SentimentRecord) : Option LLMOverview :=
  if results = [] then none
  else
    let positive_count := results.countP fun r => r.sentiment == "positive"
    let neutral_count := results.countP fun r => r.sentiment == "neutral"
    let negative_count := results.countP fun r => r.sentiment == "negative"
    let total_confidence := (results.map fun r => r.confidence).sum
    let total_comments := results.length
    let avg_confidence := total_confidence / (total_comments : ℚ)
    let positive_pct := ((positive_count : ℚ) / (total_comments : ℚ)) * 100
    let neutral_pct := ((neutral_count : ℚ) / (total_comments : ℚ)) * 100
    let negative_pct := ((negative_count : ℚ) / (total_comments : ℚ)) * 100
    let overall_rating := 1 + positive_pct * 0.04 + neutral_pct * 0.02
    some
      { positive_percentage := roundTo 1 positive_pct,
        neutral_percentage := roundTo 1 neutral_pct,
        negative_percentage := roundTo 1 negative_pct,
        overall_rating := roundTo 1 overall_rating,
        total_comments := total_comments,
        average_confidence := roundTo 3 avg_confidence }

/-- analyze_with_gemini (app.py lines 1441-1500): run the batch loop from
offset 0 and aggregate. -/
def analyzeWithGemini (available : Bool) (polarity : String → SentimentScores)
    (oracle : ℕ → GeminiOutcome) (comments : List String) : Option LLMOverview :=
  processLLMResults (geminiResults available polarity oracle comments 0)

/-- Modelled from the spec: the aggregate rating section 4.5 describes,
namely the section 4.4 formula clamp(3 + 2 x meanCompound, 1, 5) with the
lexicon compound scores replaced by confidence-weighted class counts: each
comment contributes its confidence times +1, 0 or -1 according to its
class, and the mean of those contributions feeds the clamp. -/
def specConfidenceWeightedRating (results : List SentimentRecord) : ℚ :=
  let weighted :=
    (results.map fun r =>
      r.confidence *
        (if r.sentiment == "positive" then 1
         else if r.sentiment == "negative" then -1 else 0)).sum
  max 1 (min 5 (3 + (weighted / (results.length : ℚ)) * 2))

/-! ## Recommendation generator (app.py, generate_recommendations) -/

/-- One entry of the trends dict of calculate_performance_score: metric
name mapped to direction and strength.  The change magnitudes only feed the
description strings and are omitted. -/
structure TrendEntry where
  metric : String
  direction : String
  strength : String
deriving DecidableEq

/-- A recommendation record (app.py lines 694-875).  The description and
actionItems fields are fixed prose attached to each rule and play no role
in ordering or truncation; they are omitted here. -/
structure Recommendation where
  id : ℕ
  type : String
  title : String
  priority : String
  impact : String
  category : String
deriving DecidableEq

/-- The metric_name lookup of the trend rule (app.py lines 801-806). -/
def metricName (m : String) : String :=
  if m = "views" then "Views"
  else if m = "engagement" then "Engagement"
  else if m = "watchTime" then "Watch Time"
  else if m = "ctr" then "Click-Through Rate"
  else m

/-- The rule firing of generate_recommendations (app.py lines 684-875),
before sorting and truncation: critical issues, improvement opportunities,
success recognition, trend warnings, maturity advice and the viral callout,
in source order.  Scores, maturity and the viral bonus come from the
performance dict (hence rounded); the sampled trends are passed in. -/
def buildRecommendations (cv : CurrentVideo) (chan : Option ChannelData)
    (p : PerformanceResult) (trends : List TrendEntry) : List Recommendation :=
  let channel_subscribers : ℕ :=
    match chan with | some c => c.subscriberCount | none => 45230
  let recs : List Recommendation := []
  let recs :=
    if p.scoreViews < 40 ∧
        (cv.views : ℚ) / ((max channel_subscribers 1 : ℕ) : ℚ) < 0.005 then
      recs ++ [{ id := 1, type := "warning",
                 title := "Critical: Very Low View Performance",
                 priority := "high", impact := "high", category := "Views" }]
    else recs
  let recs :=
    if p.scoreWatchTime < 40 then
      recs ++ [{ id := 2, type := "warning",
                 title := "Critical: Poor Audience Retention",
                 priority := "high", impact := "high", category := "Retention" }]
    else recs
  let recs :=
    if 40 ≤ p.scoreCtr ∧ p.scoreCtr < 70 then
      recs ++ [{ id := 3, type := "info", title := "Optimize Click-Through Rate",
                 priority := "medium", impact := "high", category := "CTR" }]
    else recs
  let recs :=
    if 40 ≤ p.scoreEngagement ∧ p.scoreEngagement < 70 then
      recs ++ [{ id := 4, type := "info", title := "Boost Audience Engagement",
                 priority := "medium", impact := "medium", category := "Engagement" }]
    else recs
  let recs :=
    if 80 < p.scoreCtr then
      recs ++ [{ id := 5, type := "success", title := "Excellent Click-Through Rate!",
                 priority := "low", impact := "high", category := "CTR" }]
    else recs
  let recs :=
    if 80 < p.scoreEngagement then
      recs ++ [{ id := 6, type := "success",
                 title := "Exceptional Audience Engagement!",
                 priority := "low", impact := "medium", category := "Engagement" }]
    else recs
  let recs := trends.foldl (fun acc td =>
    if td.direction = "down" ∧ td.strength = "strong" then
      acc ++ [{ id := 7 + acc.length, type := "warning",
                title := "Declining " ++ metricName td.metric ++ " Trend",
                priority := "high", impact := "medium", category := "Trends" }]
    else acc) recs
  let recs :=
    if p.channelMaturity < 30 then
      recs ++ [{ id := 10, type := "info", title := "New Channel Growth Strategy",
                 priority := "medium", impact := "high", category := "Growth" }]
    else recs
  let recs :=
    if 80 < p.channelMaturity then
      recs ++ [{ id := 11, type := "info", title := "Mature Channel Optimization",
                 priority := "low", impact := "medium", category := "Optimization" }]
    else recs
  let recs :=
    if 5 < p.bonusViral then
      recs ++ [{ id := 12, type := "success", title := "Viral Content Detected!",
                 priority := "high", impact := "high", category := "Viral" }]
    else recs
  recs

/-- The priority_order rank map of the sort (app.py line 878), with the
dict-get default 0. -/
def priority_order (s : String) : ℕ :=
  if s = "high" then 3 else if s = "medium" then 2 else if s = "low" then 1 else 0

/-- The impact_order rank map of the sort (app.py line 879), with the
dict-get default 0. -/
def impact_order (s : String) : ℕ :=
  if s = "high" then 3 else if s = "medium" then 2 else if s = "low" then 1 else 0

/-- The sort key of a recommendation (app.py line 882). -/
def recKey (r : Recommendation) : ℕ × ℕ :=
  (priority_order r.priority, impact_order r.impact)

/-- Lexicographic order on sort keys, as Python compares tuples. -/
def keyLex (x y : ℕ × ℕ) : Prop := x.1 < y.1 ∨ (x.1 = y.1 ∧ x.2 ≤ y.2)

instance (x y : ℕ × ℕ) : Decidable (keyLex x y) := by
  unfold keyLex
  infer_instance

/-- The comparator of the reverse sort of app.py lines 881-884: b before a
when the key of b is lexicographically at most the key of a; a stable
descending sort with this comparator is what list.sort with reverse=True
produces. -/
def recLe (a b : Recommendation) : Bool := decide (keyLex (recKey b) (recKey a))

/-- generate_recommendations (app.py lines 673-886): build the rule list
from the freshly computed performance dict, sort it by (priority, impact)
descending, and keep the top 6.  none propagates the engagement-metrics
failure of the performance computation. -/
def generateRecommendations (cv : CurrentVideo) (chan : Option ChannelData)
    (trends : List TrendEntry) : Option (List Recommendation) :=
  (calculatePerformanceScore cv chan).map fun p =>
    ((buildRecommendations cv chan p trends).mergeSort recLe).take 6

/-- A positive low-confidence record, as the pipeline could produce it. -/
def llmRecPos : SentimentRecord :=
  { comment_id := "comment_1", comment_text := "great video",
    sentiment := "positive", confidence := 0.2, source := "gemini_api" }

/-- A negative full-confidence record, as the pipeline could produce it. -/
def llmRecNeg : SentimentRecord :=
  { comment_id := "comment_2", comment_text := "bad video",
    sentiment := "negative", confidence := 1, source := "gemini_api" }

/-- A raw LLM record with an unexpected label and an out-of-range
confidence. -/
def rawBad : RawRecord :=
  { comment_id := "comment_1", sentiment := "AMAZING", confidence := 7/2 }

/-- A source tag of the lexicon fallback (vader when available, mock
otherwise). -/
def isFallbackSource (s : String) : Prop := s = "vader_fallback" ∨ s = "mock_fallback"

/-- The source tag the pipeline must attach given the outcome of the
batch the comment belongs to: an accepted LLM response tags gemini_api,
every failure mode tags a fallback source. -/
def sourceSpec (out : GeminiOutcome) (s : String) : Prop :=
  match out with
  | GeminiOutcome.ok (some _) => s = "gemini_api"
  | _ => isFallbackSource s

/-- Twelve comments: two batches, the first of ten and the second of two. -/
def witComments : List String :=
  ["c01", "c02", "c03", "c04", "c05", "c06", "c07", "c08", "c09", "c10",
   "c11", "c12"]

/-- A well-formed LLM response for the second batch. -/
def witRecs : List RawRecord :=
  [{ comment_id := "comment_11", sentiment := "positive", confidence := 0.9 },
   { comment_id := "comment_12", sentiment := "negative", confidence := 0.8 }]

/-- An oracle whose first batch call fails with a 500 and whose later calls
succeed. -/
def witOracle : ℕ → GeminiOutcome := fun bs =>
  if bs = 0 then GeminiOutcome.httpError 500 else GeminiOutcome.ok (some witRecs)

/-! ## Theorems -/

theorem rfloor_eq (q : ℚ) : rfloor q = ⌊q⌋ := Rat.floor_def.symm

theorem le_rhe (x : ℚ) (m : ℤ) (h : (m : ℚ) ≤ x) : m ≤ rhe x := by
  have hfl : m ≤ ⌊x⌋ := Int.le_floor.mpr h
  unfold rhe
  rw [rfloor_eq]
  split_ifs <;> omega

theorem rhe_le (x : ℚ) (m : ℤ) (h : x ≤ (m : ℚ)) : rhe x ≤ m := by
  have hfl : (⌊x⌋ : ℚ) ≤ x := Int.floor_le x
  unfold rhe
  rw [rfloor_eq]
  have hm : ⌊x⌋ ≤ m := by
    have := Int.floor_le_floor h
    simpa using this
  split_ifs with h1 h2 h3
  · exact hm
  · -- here 1/2 < x - floor x, so x is strictly above floor x, hence floor x < m
    have hlt : (⌊x⌋ : ℚ) < x := by linarith
    have : ⌊x⌋ < m := by
      by_contra hcon
      push_neg at hcon
      have : (m : ℚ) ≤ (⌊x⌋ : ℚ) := by exact_mod_cast hcon
      linarith
    omega
  · exact hm
  · have hlt : (⌊x⌋ : ℚ) < x := by linarith
    have : ⌊x⌋ < m := by
      by_contra hcon
      push_neg at hcon
      have : (m : ℚ) ≤ (⌊x⌋ : ℚ) := by exact_mod_cast hcon
      linarith
    omega

theorem abs_rhe_sub_le (x : ℚ) : |(rhe x : ℚ) - x| ≤ 1/2 := by
  have hfl : (⌊x⌋ : ℚ) ≤ x := Int.floor_le x
  have hfu : x < (⌊x⌋ : ℚ) + 1 := Int.lt_floor_add_one x
  unfold rhe
  rw [rfloor_eq]
  split_ifs with h1 h2 h3 <;> rw [abs_le] <;> constructor <;> push_cast <;> linarith

theorem roundTo_nonneg (d : ℕ) (x : ℚ) (h : 0 ≤ x) : 0 ≤ roundTo d x := by
  unfold roundTo
  have hx : ((0 : ℤ) : ℚ) ≤ x * 10 ^ d := by positivity
  have := le_rhe (x * 10 ^ d) 0 hx
  have h10 : (0 : ℚ) < 10 ^ d := by positivity
  apply div_nonneg _ (le_of_lt h10)
  exact_mod_cast this

theorem roundTo_le_of_le (d : ℕ) (x : ℚ) (m : ℤ) (h : x ≤ (m : ℚ)) :
    roundTo d x ≤ (m : ℚ) := by
  unfold roundTo
  have h10 : (0 : ℚ) < 10 ^ d := by positivity
  have hx : x * 10 ^ d ≤ ((m * 10 ^ d : ℤ) : ℚ) := by
    push_cast
    exact mul_le_mul_of_nonneg_right h (le_of_lt h10)
  have := rhe_le (x * 10 ^ d) (m * 10 ^ d) hx
  rw [div_le_iff₀ h10]
  calc (rhe (x * 10 ^ d) : ℚ) ≤ ((m * 10 ^ d : ℤ) : ℚ) := by exact_mod_cast this
    _ = (m : ℚ) * 10 ^ d := by push_cast; ring

theorem abs_roundTo_sub_le (d : ℕ) (x : ℚ) :
    |roundTo d x - x| ≤ 1 / (2 * 10 ^ d) := by
  unfold roundTo
  have h10 : (0 : ℚ) < 10 ^ d := by positivity
  have h := abs_rhe_sub_le (x * 10 ^ d)
  have : |(rhe (x * 10 ^ d) : ℚ) / 10 ^ d - x| = |(rhe (x * 10 ^ d) : ℚ) - x * 10 ^ d| / 10 ^ d := by
    rw [← abs_of_pos h10, ← abs_div]
    congr 1
    field_simp
    ring
  rw [this]
  rw [div_le_iff₀ h10]
  calc |(rhe (x * 10 ^ d) : ℚ) - x * 10 ^ d| ≤ 1/2 := h
    _ = 1 / (2 * 10 ^ d) * 10 ^ d := by field_simp

/-! ## Bounds of the component scores -/

theorem viewsScore_nonneg (v s : ℕ) : 0 ≤ viewsScore v s := by
  unfold viewsScore
  have hv : (0 : ℚ) ≤ (v : ℚ) := by positivity
  split_ifs with h1 h2 h3 h4
  · have : (0 : ℚ) ≤ min 5 (((v : ℚ) / (s : ℚ) - 0.05) * 100) :=
      le_min (by norm_num) (mul_nonneg (by linarith) (by norm_num))
    linarith
  · have h0 : (0 : ℚ) ≤ (((v : ℚ) / (s : ℚ) - 0.02) / (0.05 - 0.02)) * 25 :=
      mul_nonneg (div_nonneg (by linarith) (by norm_num)) (by norm_num)
    linarith
  · have h0 : (0 : ℚ) ≤ (((v : ℚ) / (s : ℚ) - 0.01) / (0.02 - 0.01)) * 30 :=
      mul_nonneg (div_nonneg (by linarith) (by norm_num)) (by norm_num)
    linarith
  · exact le_min (by norm_num) (by positivity)
  · exact le_min (by norm_num) (by positivity)

theorem ctrScore_nonneg (ctr : ℚ) (h : 0 ≤ ctr) : 0 ≤ ctrScore ctr := by
  unfold ctrScore
  split_ifs with h1 h2 h3
  · have : (0 : ℚ) ≤ min 5 ((ctr - 10) / 2) :=
      le_min (by norm_num) (div_nonneg (by linarith) (by norm_num))
    linarith
  · have h0 : (0 : ℚ) ≤ ((ctr - 4) / (10 - 4)) * 20 :=
      mul_nonneg (div_nonneg (by linarith) (by norm_num)) (by norm_num)
    linarith
  · have h0 : (0 : ℚ) ≤ ((ctr - 2) / (4 - 2)) * 25 :=
      mul_nonneg (div_nonneg (by linarith) (by norm_num)) (by norm_num)
    linarith
  · exact mul_nonneg (div_nonneg h (by norm_num)) (by norm_num)

theorem engagementScore_nonneg (er : ℚ) (h : 0 ≤ er) : 0 ≤ engagementScore er := by
  unfold engagementScore
  split_ifs with h1 h2 h3
  · have : (0 : ℚ) ≤ min 5 ((er - 8) / 2) :=
      le_min (by norm_num) (div_nonneg (by linarith) (by norm_num))
    linarith
  · have h0 : (0 : ℚ) ≤ ((er - 4) / (8 - 4)) * 20 :=
      mul_nonneg (div_nonneg (by linarith) (by norm_num)) (by norm_num)
    linarith
  · have h0 : (0 : ℚ) ≤ ((er - 2) / (4 - 2)) * 25 :=
      mul_nonneg (div_nonneg (by linarith) (by norm_num)) (by norm_num)
    linarith
  · exact mul_nonneg (div_nonneg h (by norm_num)) (by norm_num)

theorem watchTimeScore_nonneg (rp : ℚ) (h : 0 ≤ rp) : 0 ≤ watchTimeScore rp := by
  unfold watchTimeScore
  split_ifs with h1 h2 h3
  · have : (0 : ℚ) ≤ min 5 ((rp - 70) / 10) :=
      le_min (by norm_num) (div_nonneg (by linarith) (by norm_num))
    linarith
  · have h0 : (0 : ℚ) ≤ ((rp - 50) / (70 - 50)) * 20 :=
      mul_nonneg (div_nonneg (by linarith) (by norm_num)) (by norm_num)
    linarith
  · have h0 : (0 : ℚ) ≤ ((rp - 30) / (50 - 30)) * 25 :=
      mul_nonneg (div_nonneg (by linarith) (by norm_num)) (by norm_num)
    linarith
  · exact mul_nonneg (div_nonneg h (by norm_num)) (by norm_num)

theorem weightsFor_nonneg (m : ℚ) :
    0 ≤ (weightsFor m).views ∧ 0 ≤ (weightsFor m).engagement_rate ∧
    0 ≤ (weightsFor m).watch_time ∧ 0 ≤ (weightsFor m).click_through_rate := by
  unfold weightsFor
  split_ifs <;> norm_num

theorem viralTerm_nonneg (views subs : ℕ) :
    (0 : ℚ) ≤
      (if 0 < subs then
        if (0.1 : ℚ) < (views : ℚ) / (subs : ℚ) then
          min 10 (((views : ℚ) / (subs : ℚ) - 0.1) * 20)
        else 0
      else 0) := by
  split_ifs with h1 h2
  · exact le_min (by norm_num) (mul_nonneg (by linarith) (by norm_num))
  · exact le_rfl
  · exact le_rfl

theorem roundTo_min100_bounds (S : ℚ) (hS : 0 ≤ S) :
    0 ≤ roundTo 1 (min 100 S) ∧ roundTo 1 (min 100 S) ≤ 100 := by
  constructor
  · exact roundTo_nonneg _ _ (le_min (by norm_num) hS)
  · have h100 : min 100 S ≤ ((100 : ℤ) : ℚ) := by
      push_cast
      exact min_le_left _ _
    simpa using roundTo_le_of_le 1 _ 100 h100

theorem perfFrom_overall_bounds (cv : CurrentVideo) (chan : Option ChannelData)
    (em : EngagementMetrics) (hctr : 0 ≤ cv.clickThroughRate)
    (her : 0 ≤ em.engagementRate) (hwt : 0 ≤ em.watchTimePercentage) :
    0 ≤ (perfFrom cv chan em).overallScore ∧ (perfFrom cv chan em).overallScore ≤ 100 := by
  cases chan with
  | none =>
    unfold perfFrom
    dsimp only
    apply roundTo_min100_bounds
    refine add_nonneg (add_nonneg (add_nonneg (add_nonneg (add_nonneg ?_ ?_) ?_) ?_) ?_) ?_
    · exact mul_nonneg (viewsScore_nonneg _ _) (weightsFor_nonneg _).1
    · exact mul_nonneg (engagementScore_nonneg _ her) (weightsFor_nonneg _).2.1
    · exact mul_nonneg (watchTimeScore_nonneg _ hwt) (weightsFor_nonneg _).2.2.1
    · exact mul_nonneg (ctrScore_nonneg _ hctr) (weightsFor_nonneg _).2.2.2
    · exact le_min (by norm_num) (mul_nonneg (le_min (by norm_num) (by positivity)) (by norm_num))
    · exact viralTerm_nonneg _ _
  | some c =>
    unfold perfFrom
    dsimp only
    apply roundTo_min100_bounds
    refine add_nonneg (add_nonneg (add_nonneg (add_nonneg (add_nonneg ?_ ?_) ?_) ?_) ?_) ?_
    · exact mul_nonneg (viewsScore_nonneg _ _) (weightsFor_nonneg _).1
    · exact mul_nonneg (engagementScore_nonneg _ her) (weightsFor_nonneg _).2.1
    · exact mul_nonneg (watchTimeScore_nonneg _ hwt) (weightsFor_nonneg _).2.2.1
    · exact mul_nonneg (ctrScore_nonneg _ hctr) (weightsFor_nonneg _).2.2.2
    · exact le_min (by norm_num) (mul_nonneg (le_min (by norm_num) (by positivity)) (by norm_num))
    · exact viralTerm_nonneg _ _

theorem calcEM_some (cv : CurrentVideo) (hv : cv.views ≠ 0) (ds avs : ℕ)
    (hds : parseDuration cv.duration = some ds)
    (havs : parseDuration cv.avgViewDuration = some avs) (hds0 : ds ≠ 0) :
    ∃ em, calculateEngagementMetrics cv = some em ∧
      0 ≤ em.engagementRate ∧ 0 ≤ em.watchTimePercentage := by
  unfold calculateEngagementMetrics
  dsimp only
  rw [if_neg hv, hds, havs]
  dsimp only
  rw [if_neg hds0]
  refine ⟨_, rfl, ?_, ?_⟩
  · exact roundTo_nonneg _ _ (by positivity)
  · exact roundTo_nonneg _ _ (by positivity)

/-- C1 (amended): for every input whose views count is nonzero, whose
duration string parses to a nonzero number of seconds, whose average view
duration parses, and whose click-through rate is nonnegative,
calculate_performance_score returns without error and its overallScore lies
in [0,100].  (The claim as frozen also covers views = 0; the counterexample
below shows the engagement-rate division fails there.) -/
theorem perf_score_no_error_in_range (cv : CurrentVideo) (chan : Option ChannelData)
    (hv : cv.views ≠ 0)
    (hd : ∃ ds, parseDuration cv.duration = some ds ∧ ds ≠ 0)
    (ha : ∃ avs, parseDuration cv.avgViewDuration = some avs)
    (hctr : 0 ≤ cv.clickThroughRate) :
    ∃ r, calculatePerformanceScore cv chan = some r ∧
      0 ≤ r.overallScore ∧ r.overallScore ≤ 100 := by
  obtain ⟨ds, hds, hds0⟩ := hd
  obtain ⟨avs, havs⟩ := ha
  obtain ⟨em, hem, her, hwt⟩ := calcEM_some cv hv ds avs hds havs hds0
  refine ⟨perfFrom cv chan em, ?_, ?_, ?_⟩
  · unfold calculatePerformanceScore
    rw [hem]
    rfl
  · exact (perfFrom_overall_bounds cv chan em hctr her hwt).1
  · exact (perfFrom_overall_bounds cv chan em hctr her hwt).2

/-- Witness for C1 at the initial base_data video. -/
theorem perf_score_no_error_witness :
    ∃ r, calculatePerformanceScore baseVideo none = some r ∧
      0 ≤ r.overallScore ∧ r.overallScore ≤ 100 :=
  perf_score_no_error_in_range baseVideo none (by decide)
    ⟨1475, by decide, by decide⟩ ⟨1122, by decide⟩ (by norm_num [baseVideo])

/-- C1 counterexample: on a video with views = 0 the engagement-rate
division of calculate_engagement_metrics raises ZeroDivisionError, so
calculate_performance_score does not return a score at all. -/
theorem perf_score_zero_views_errors :
    calculatePerformanceScore { baseVideo with views := 0 } none = none := by rfl

theorem gradeRank_getPerformanceGrade (s : ℚ) :
    gradeRank (getPerformanceGrade s) = gradeIdx s := by
  simp only [getPerformanceGrade, gradeIdx, apply_ite gradeRank]
  simp [gradeRank]

theorem gradeIdx_eq (s : ℚ) : gradeIdx s = (if (90 : ℚ) ≤ s then 1 else 0) + (if (85 : ℚ) ≤ s then 1 else 0) + (if (80 : ℚ) ≤ s then 1 else 0) + (if (75 : ℚ) ≤ s then 1 else 0) + (if (70 : ℚ) ≤ s then 1 else 0) + (if (65 : ℚ) ≤ s then 1 else 0) + (if (60 : ℚ) ≤ s then 1 else 0) + (if (55 : ℚ) ≤ s then 1 else 0) + (if (50 : ℚ) ≤ s then 1 else 0) + (if (40 : ℚ) ≤ s then 1 else 0) := by
  unfold gradeIdx
  by_cases h90 : (90 : ℚ) ≤ s
  · have h85 : (85 : ℚ) ≤ s := by linarith
    have h80 : (80 : ℚ) ≤ s := by linarith
    have h75 : (75 : ℚ) ≤ s := by linarith
    have h70 : (70 : ℚ) ≤ s := by linarith
    have h65 : (65 : ℚ) ≤ s := by linarith
    have h60 : (60 : ℚ) ≤ s := by linarith
    have h55 : (55 : ℚ) ≤ s := by linarith
    have h50 : (50 : ℚ) ≤ s := by linarith
    have h40 : (40 : ℚ) ≤ s := by linarith
    simp [h90, h85, h80, h75, h70, h65, h60, h55, h50, h40]
  by_cases h85 : (85 : ℚ) ≤ s
  · have h80 : (80 : ℚ) ≤ s := by linarith
    have h75 : (75 : ℚ) ≤ s := by linarith
    have h70 : (70 : ℚ) ≤ s := by linarith
    have h65 : (65 : ℚ) ≤ s := by linarith
    have h60 : (60 : ℚ) ≤ s := by linarith
    have h55 : (55 : ℚ) ≤ s := by linarith
    have h50 : (50 : ℚ) ≤ s := by linarith
    have h40 : (40 : ℚ) ≤ s := by linarith
    simp [h90, h85, h80, h75, h70, h65, h60, h55, h50, h40]
  by_cases h80 : (80 : ℚ) ≤ s
  · have h75 : (75 : ℚ) ≤ s := by linarith
    have h70 : (70 : ℚ) ≤ s := by linarith
    have h65 : (65 : ℚ) ≤ s := by linarith
    have h60 : (60 : ℚ) ≤ s := by linarith
    have h55 : (55 : ℚ) ≤ s := by linarith
    have h50 : (50 : ℚ) ≤ s := by linarith
    have h40 : (40 : ℚ) ≤ s := by linarith
    simp [h90, h85, h80, h75, h70, h65, h60, h55, h50, h40]
  by_cases h75 : (75 : ℚ) ≤ s
  · have h70 : (70 : ℚ) ≤ s := by linarith
    have h65 : (65 : ℚ) ≤ s := by linarith
    have h60 : (60 : ℚ) ≤ s := by linarith
    have h55 : (55 : ℚ) ≤ s := by linarith
    have h50 : (50 : ℚ) ≤ s := by linarith
    have h40 : (40 : ℚ) ≤ s := by linarith
    simp [h90, h85, h80, h75, h70, h65, h60, h55, h50, h40]
  by_cases h70 : (70 : ℚ) ≤ s
  · have h65 : (65 : ℚ) ≤ s := by linarith
    have h60 : (60 : ℚ) ≤ s := by linarith
    have h55 : (55 : ℚ) ≤ s := by linarith
    have h50 : (50 : ℚ) ≤ s := by linarith
    have h40 : (40 : ℚ) ≤ s := by linarith
    simp [h90, h85, h80, h75, h70, h65, h60, h55, h50, h40]
  by_cases h65 : (65 : ℚ) ≤ s
  · have h60 : (60 : ℚ) ≤ s := by linarith
    have h55 : (55 : ℚ) ≤ s := by linarith
    have h50 : (50 : ℚ) ≤ s := by linarith
    have h40 : (40 : ℚ) ≤ s := by linarith
    simp [h90, h85, h80, h75, h70, h65, h60, h55, h50, h40]
  by_cases h60 : (60 : ℚ) ≤ s
  · have h55 : (55 : ℚ) ≤ s := by linarith
    have h50 : (50 : ℚ) ≤ s := by linarith
    have h40 : (40 : ℚ) ≤ s := by linarith
    simp [h90, h85, h80, h75, h70, h65, h60, h55, h50, h40]
  by_cases h55 : (55 : ℚ) ≤ s
  · have h50 : (50 : ℚ) ≤ s := by linarith
    have h40 : (40 : ℚ) ≤ s := by linarith
    simp [h90, h85, h80, h75, h70, h65, h60, h55, h50, h40]
  by_cases h50 : (50 : ℚ) ≤ s
  · have h40 : (40 : ℚ) ≤ s := by linarith
    simp [h90, h85, h80, h75, h70, h65, h60, h55, h50, h40]
  by_cases h40 : (40 : ℚ) ≤ s
  · simp [h90, h85, h80, h75, h70, h65, h60, h55, h50, h40]
  simp [h90, h85, h80, h75, h70, h65, h60, h55, h50, h40]

theorem indicator_mono (th s t : ℚ) (h : s ≤ t) :
    (if th ≤ s then (1 : ℕ) else 0) ≤ (if th ≤ t then 1 else 0) := by
  split_ifs with h1 h2
  · exact le_rfl
  · exact absurd (le_trans h1 h) h2
  · exact Nat.zero_le _
  · exact le_rfl

theorem gradeIdx_mono {s t : ℚ} (h : s ≤ t) : gradeIdx s ≤ gradeIdx t := by
  rw [gradeIdx_eq, gradeIdx_eq]
  refine add_le_add (add_le_add (add_le_add (add_le_add (add_le_add (add_le_add (add_le_add (add_le_add (add_le_add ?_ ?_) ?_) ?_) ?_) ?_) ?_) ?_) ?_) ?_ <;>
    exact indicator_mono _ s t h

/-- C2: _get_performance_grade is monotonic non-decreasing in the score and
matches the fixed ladder exactly at and just below each threshold. -/
theorem grade_ladder_monotone_and_thresholds :
    (∀ s t : ℚ, s ≤ t → gradeRank (getPerformanceGrade s) ≤ gradeRank (getPerformanceGrade t)) ∧
    getPerformanceGrade 90 = "A+" ∧ getPerformanceGrade 89.9 = "A" ∧
    getPerformanceGrade 85 = "A" ∧ getPerformanceGrade 84.9 = "A-" ∧
    getPerformanceGrade 80 = "A-" ∧ getPerformanceGrade 79.9 = "B+" ∧
    getPerformanceGrade 75 = "B+" ∧ getPerformanceGrade 74.9 = "B" ∧
    getPerformanceGrade 70 = "B" ∧ getPerformanceGrade 69.9 = "B-" ∧
    getPerformanceGrade 65 = "B-" ∧ getPerformanceGrade 64.9 = "C+" ∧
    getPerformanceGrade 60 = "C+" ∧ getPerformanceGrade 59.9 = "C" ∧
    getPerformanceGrade 55 = "C" ∧ getPerformanceGrade 54.9 = "C-" ∧
    getPerformanceGrade 50 = "C-" ∧ getPerformanceGrade 49.9 = "D" ∧
    getPerformanceGrade 40 = "D" ∧ getPerformanceGrade 39.9 = "F" := by
  constructor
  · intro s t hst
    rw [gradeRank_getPerformanceGrade, gradeRank_getPerformanceGrade]
    exact gradeIdx_mono hst
  · refine ⟨?_, ?_, ?_, ?_, ?_, ?_, ?_, ?_, ?_, ?_, ?_, ?_, ?_, ?_, ?_, ?_, ?_, ?_, ?_, ?_⟩ <;>
      norm_num [getPerformanceGrade]

/-- Witness for C2 monotonicity at concrete scores. -/
theorem grade_ladder_witness :
    gradeRank (getPerformanceGrade 47) ≤ gradeRank (getPerformanceGrade 88.5) :=
  grade_ladder_monotone_and_thresholds.1 47 88.5 (by norm_num)

/-- C9 counterexample: at views=156789, subscribers=45230 the view rate
156789/45230 is about 3.47, which is at or above the 0.05 viral threshold,
so this input does not fall in the good tier and the views component score
is not the 70-to-95 interpolation the claim describes. -/
theorem views_example_not_good_tier :
    (0.05 : ℚ) ≤ (156789 : ℚ) / 45230 ∧
    viewsScore 156789 45230 ≠
      70 + (((156789 : ℚ) / 45230 - 0.02) / (0.05 - 0.02)) * 25 := by
  have h : viewsScore 156789 45230 = 100 := by
    unfold viewsScore
    rw [if_pos (by norm_num), if_pos (by norm_num)]
    rw [min_eq_left (by norm_num)]
    norm_num
  constructor
  · norm_num
  · rw [h]
    norm_num

/-- C9 (amended): at views=156789, subscribers=45230 the view rate
156789/45230 is at or above the 0.05 viral threshold, so the views
component score is the viral-tier formula 95 + min(5, (rate - 0.05) * 100),
which caps at 100 for this input. -/
theorem views_example_viral_tier :
    (0.05 : ℚ) ≤ (156789 : ℚ) / 45230 ∧
    viewsScore 156789 45230 = 95 + min 5 (((156789 : ℚ) / 45230 - 0.05) * 100) ∧
    viewsScore 156789 45230 = 100 := by
  have h : viewsScore 156789 45230 = 100 := by
    unfold viewsScore
    rw [if_pos (by norm_num), if_pos (by norm_num)]
    rw [min_eq_left (by norm_num)]
    norm_num
  refine ⟨by norm_num, ?_, h⟩
  rw [h, min_eq_left (by norm_num)]
  norm_num

theorem rhe_intCast (z : ℤ) : rhe (z : ℚ) = z := by
  unfold rhe
  rw [rfloor_eq, Int.floor_intCast]
  norm_num

theorem roundTo_eval (d : ℕ) (x : ℚ) (z : ℤ) (h : x * 10 ^ d = (z : ℚ)) :
    roundTo d x = (z : ℚ) / 10 ^ d := by
  unfold roundTo
  rw [h, rhe_intCast]

/-- C7 counterexample: on the empty text analyze_sentiment draws its scores
from the random source even when the lexicon is available, so two calls
with different random states disagree. -/
theorem lexicon_not_deterministic_on_empty :
    analyzeSentiment true (fun _ => { pos := 0, neu := 0, neg := 0, compound := 0 })
        (fun _ => 0) "" ≠
      analyzeSentiment true (fun _ => { pos := 0, neu := 0, neg := 0, compound := 0 })
        (fun _ => 1) "" := by
  simp only [analyzeSentiment, uniformDraw]
  norm_num [SentimentScores.mk.injEq]

/-- C7 (amended): for every nonempty input text, with the lexicon
available, per-comment sentiment analysis is deterministic: the random
source does not enter the result, so two calls with the same text return
the same scores and the same class label.  (For empty text, or when the
lexicon is unavailable, the scores are random draws; see the
counterexample.) -/
theorem lexicon_deterministic_on_nonempty (polarity : String → SentimentScores)
    (rng rng' : ℕ → ℚ) (text : String) (h : text ≠ "") :
    analyzeSentiment true polarity rng text = analyzeSentiment true polarity rng' text ∧
    classifySentiment (analyzeSentiment true polarity rng text).compound =
      classifySentiment (analyzeSentiment true polarity rng' text).compound := by
  unfold analyzeSentiment
  simp [h]

/-- Witness for C7 at a concrete text and two different random states. -/
theorem lexicon_deterministic_witness :
    analyzeSentiment true (fun _ => { pos := 0, neu := 0, neg := 0, compound := 0 })
        (fun _ => 0) "great video" =
      analyzeSentiment true (fun _ => { pos := 0, neu := 0, neg := 0, compound := 0 })
        (fun _ => 1) "great video" ∧
    classifySentiment ((analyzeSentiment true
        (fun _ => { pos := 0, neu := 0, neg := 0, compound := 0 })
        (fun _ => 0) "great video").compound) =
      classifySentiment ((analyzeSentiment true
        (fun _ => { pos := 0, neu := 0, neg := 0, compound := 0 })
        (fun _ => 1) "great video").compound) :=
  lexicon_deterministic_on_nonempty _ _ _ "great video" (by decide)

/-- C10: analyse_comments ignores comments whose stripped text has fewer
than 3 characters: the result equals the result on the filtered list, and
whenever no comment survives the filter (an empty list included) the fixed
mock overview is returned. -/
theorem short_comments_excluded (sentOf : ℕ → String → SentimentScores)
    (comments : List String) :
    analyzeComments sentOf comments =
      analyzeComments sentOf (comments.filter fun c => !(skipComment c)) ∧
    ((comments.filter fun c => !(skipComment c)) = [] →
      analyzeComments sentOf comments = mockSentimentOverview) := by
  constructor
  · by_cases hc : comments = []
    · subst hc
      simp
    · unfold analyzeComments
      rw [if_neg hc]
      by_cases hk : (comments.filter fun c => !(skipComment c)) = []
      · rw [hk]
        simp [mapWithId]
      · rw [if_neg hk]
        have hff : ((comments.filter fun c => !(skipComment c)).filter
            fun c => !(skipComment c)) = comments.filter fun c => !(skipComment c) := by
          rw [List.filter_filter]
          simp
        rw [hff]
  · intro hk
    unfold analyzeComments
    by_cases hc : comments = []
    · simp [hc]
    · rw [if_neg hc]
      simp [hk, mapWithId]

/-- Witness for C10: a nonempty list of only short comments returns the
mock overview. -/
theorem short_comments_excluded_witness :
    analyzeComments (fun _ _ => { pos := 0, neu := 0, neg := 0, compound := 0 })
      ["ab", ""] = mockSentimentOverview :=
  (short_comments_excluded
    (fun _ _ => { pos := 0, neu := 0, neg := 0, compound := 0 })
    ["ab", ""]).2 (by decide)

theorem abs_roundPct_sum (a b c n : ℕ) (hn : n ≠ 0) (h : a + b + c = n) :
    |roundTo 1 ((a : ℚ) / (n : ℚ) * 100) + roundTo 1 ((b : ℚ) / (n : ℚ) * 100) +
      roundTo 1 ((c : ℚ) / (n : ℚ) * 100) - 100| ≤ 1/10 := by
  have hn' : (n : ℚ) ≠ 0 := Nat.cast_ne_zero.mpr hn
  have hsum : (a : ℚ) / (n : ℚ) * 100 + (b : ℚ) / (n : ℚ) * 100 +
      (c : ℚ) / (n : ℚ) * 100 = 100 := by
    have hc : ((a : ℚ) + b + c) = (n : ℚ) := by exact_mod_cast congrArg (Nat.cast (R := ℚ)) h
    field_simp
    linarith
  have e1 := abs_roundTo_sub_le 1 ((a : ℚ) / (n : ℚ) * 100)
  have e2 := abs_roundTo_sub_le 1 ((b : ℚ) / (n : ℚ) * 100)
  have e3 := abs_roundTo_sub_le 1 ((c : ℚ) / (n : ℚ) * 100)
  norm_num at e1 e2 e3
  have hra : roundTo 1 ((a : ℚ) / (n : ℚ) * 100) =
      ((rhe ((a : ℚ) / (n : ℚ) * 100 * 10 ^ 1) : ℤ) : ℚ) / 10 ^ 1 := rfl
  have hrb : roundTo 1 ((b : ℚ) / (n : ℚ) * 100) =
      ((rhe ((b : ℚ) / (n : ℚ) * 100 * 10 ^ 1) : ℤ) : ℚ) / 10 ^ 1 := rfl
  have hrc : roundTo 1 ((c : ℚ) / (n : ℚ) * 100) =
      ((rhe ((c : ℚ) / (n : ℚ) * 100 * 10 ^ 1) : ℤ) : ℚ) / 10 ^ 1 := rfl
  have hS : roundTo 1 ((a : ℚ) / (n : ℚ) * 100) + roundTo 1 ((b : ℚ) / (n : ℚ) * 100) +
      roundTo 1 ((c : ℚ) / (n : ℚ) * 100) - 100 =
      ((rhe ((a : ℚ) / (n : ℚ) * 100 * 10 ^ 1) + rhe ((b : ℚ) / (n : ℚ) * 100 * 10 ^ 1) +
        rhe ((c : ℚ) / (n : ℚ) * 100 * 10 ^ 1) - 1000 : ℤ) : ℚ) / 10 := by
    rw [hra, hrb, hrc]
    push_cast
    ring
  have habs : |roundTo 1 ((a : ℚ) / (n : ℚ) * 100) + roundTo 1 ((b : ℚ) / (n : ℚ) * 100) +
      roundTo 1 ((c : ℚ) / (n : ℚ) * 100) - 100| ≤ 3/20 := by
    have hrw : roundTo 1 ((a : ℚ) / (n : ℚ) * 100) + roundTo 1 ((b : ℚ) / (n : ℚ) * 100) +
        roundTo 1 ((c : ℚ) / (n : ℚ) * 100) - 100 =
        (roundTo 1 ((a : ℚ) / (n : ℚ) * 100) - (a : ℚ) / (n : ℚ) * 100) +
        (roundTo 1 ((b : ℚ) / (n : ℚ) * 100) - (b : ℚ) / (n : ℚ) * 100) +
        (roundTo 1 ((c : ℚ) / (n : ℚ) * 100) - (c : ℚ) / (n : ℚ) * 100) := by
      linarith [hsum]
    rw [hrw]
    have h3 := abs_add_three
      (roundTo 1 ((a : ℚ) / (n : ℚ) * 100) - (a : ℚ) / (n : ℚ) * 100)
      (roundTo 1 ((b : ℚ) / (n : ℚ) * 100) - (b : ℚ) / (n : ℚ) * 100)
      (roundTo 1 ((c : ℚ) / (n : ℚ) * 100) - (c : ℚ) / (n : ℚ) * 100)
    linarith
  rw [hS] at habs ⊢
  rw [abs_div] at habs ⊢
  norm_num at habs ⊢
  have hZ : |rhe ((a : ℚ) / (n : ℚ) * 100 * 10 ^ 1) + rhe ((b : ℚ) / (n : ℚ) * 100 * 10 ^ 1) +
      rhe ((c : ℚ) / (n : ℚ) * 100 * 10 ^ 1) - 1000| ≤ (1 : ℤ) := by
    by_contra hcon
    push_neg at hcon
    have h2 : (2 : ℤ) ≤ |rhe ((a : ℚ) / (n : ℚ) * 100 * 10 ^ 1) +
        rhe ((b : ℚ) / (n : ℚ) * 100 * 10 ^ 1) +
        rhe ((c : ℚ) / (n : ℚ) * 100 * 10 ^ 1) - 1000| := by omega
    have h2' : (2 : ℚ) ≤ |((rhe ((a : ℚ) / (n : ℚ) * 100 * 10 ^ 1) +
        rhe ((b : ℚ) / (n : ℚ) * 100 * 10 ^ 1) +
        rhe ((c : ℚ) / (n : ℚ) * 100 * 10 ^ 1) - 1000 : ℤ) : ℚ)| := by
      rw [← Int.cast_abs]
      exact_mod_cast h2
    push_cast at h2'
    norm_num at h2'
    linarith
  have hZ' : |((rhe ((a : ℚ) / (n : ℚ) * 100 * 10 ^ 1) +
      rhe ((b : ℚ) / (n : ℚ) * 100 * 10 ^ 1) +
      rhe ((c : ℚ) / (n : ℚ) * 100 * 10 ^ 1) - 1000 : ℤ) : ℚ)| ≤ 1 := by
    rw [← Int.cast_abs]
    exact_mod_cast hZ
  push_cast at hZ'
  norm_num at hZ'
  linarith

theorem countP_compound_partition (l : List ℚ) :
    (l.countP fun cp => decide ((0.05 : ℚ) ≤ cp)) +
    (l.countP fun cp => decide (¬((0.05 : ℚ) ≤ cp) ∧ cp ≤ -0.05)) +
    (l.countP fun cp => decide (¬((0.05 : ℚ) ≤ cp) ∧ ¬(cp ≤ -0.05))) = l.length := by
  induction l with
  | nil => simp
  | cons a l ih =>
    simp only [List.countP_cons, List.length_cons]
    by_cases h1 : (0.05 : ℚ) ≤ a
    · have hp1 : decide ((0.05 : ℚ) ≤ a) = true := decide_eq_true h1
      have hp2 : decide (¬((0.05 : ℚ) ≤ a) ∧ a ≤ -0.05) = false :=
        decide_eq_false fun hx => hx.1 h1
      have hp3 : decide (¬((0.05 : ℚ) ≤ a) ∧ ¬(a ≤ -0.05)) = false :=
        decide_eq_false fun hx => hx.1 h1
      rw [hp1, hp2, hp3]
      simp only [if_true, Bool.false_eq_true, if_false]
      omega
    · by_cases h2 : a ≤ -0.05
      · have hp1 : decide ((0.05 : ℚ) ≤ a) = false := decide_eq_false h1
        have hp2 : decide (¬((0.05 : ℚ) ≤ a) ∧ a ≤ -0.05) = true :=
          decide_eq_true ⟨h1, h2⟩
        have hp3 : decide (¬((0.05 : ℚ) ≤ a) ∧ ¬(a ≤ -0.05)) = false :=
          decide_eq_false fun hx => hx.2 h2
        rw [hp1, hp2, hp3]
        simp only [if_true, Bool.false_eq_true, if_false]
        omega
      · have hp1 : decide ((0.05 : ℚ) ≤ a) = false := decide_eq_false h1
        have hp2 : decide (¬((0.05 : ℚ) ≤ a) ∧ a ≤ -0.05) = false :=
          decide_eq_false fun hx => h2 hx.2
        have hp3 : decide (¬((0.05 : ℚ) ≤ a) ∧ ¬(a ≤ -0.05)) = true :=
          decide_eq_true ⟨h1, h2⟩
        rw [hp1, hp2, hp3]
        simp only [if_true, Bool.false_eq_true, if_false]
        omega

theorem countP_sentiment_partition (l : List SentimentRecord)
    (h : ∀ r ∈ l, r.sentiment = "positive" ∨ r.sentiment = "neutral" ∨
      r.sentiment = "negative") :
    (l.countP fun r => r.sentiment == "positive") +
    (l.countP fun r => r.sentiment == "neutral") +
    (l.countP fun r => r.sentiment == "negative") = l.length := by
  induction l with
  | nil => simp
  | cons a l ih =>
    have ha := h a (List.mem_cons_self a l)
    have hl : ∀ r ∈ l, r.sentiment = "positive" ∨ r.sentiment = "neutral" ∨
        r.sentiment = "negative" := fun r hr => h r (List.mem_cons_of_mem a hr)
    simp only [List.countP_cons, List.length_cons]
    have hrec := ih hl
    rcases ha with ha | ha | ha <;> simp [ha] <;> omega

/-- C8: in both the lexicon aggregate and the LLM aggregate the positive,
neutral and negative percentages sum to 100 within 0.1 for every non-empty
input (the lexicon aggregate falls back to the fixed mock overview, whose
percentages sum to 100 exactly, when no comment survives its filter). -/
theorem sentiment_percentages_sum_100 :
    (∀ (sentOf : ℕ → String → SentimentScores) (comments : List String),
      comments ≠ [] →
      |(analyzeComments sentOf comments).positive_percentage +
        (analyzeComments sentOf comments).neutral_percentage +
        (analyzeComments sentOf comments).negative_percentage - 100| ≤ 1/10) ∧
    (∀ results : List SentimentRecord, results ≠ [] →
      (∀ r ∈ results, r.sentiment = "positive" ∨ r.sentiment = "neutral" ∨
        r.sentiment = "negative") →
      ∃ o, processLLMResults results = some o ∧
        |o.positive_percentage + o.neutral_percentage +
          o.negative_percentage - 100| ≤ 1/10) := by
  constructor
  · intro sentOf comments hc
    unfold analyzeComments
    dsimp only
    rw [if_neg hc]
    by_cases h0 :
        (mapWithId (fun i c => (sentOf i c).compound) 0
          (comments.filter fun c => !(skipComment c))).length = 0
    · simp only [h0]
      norm_num [mockSentimentOverview]
    · rw [if_neg h0]
      dsimp only
      have hpart := countP_compound_partition
        (mapWithId (fun i c => (sentOf i c).compound) 0
          (comments.filter fun c => !(skipComment c)))
      exact abs_roundPct_sum _ _ _ _ h0 (by omega)
  · intro results hres hmem
    unfold processLLMResults
    dsimp only
    rw [if_neg hres]
    refine ⟨_, rfl, ?_⟩
    dsimp only
    have hpart := countP_sentiment_partition results hmem
    have hn : results.length ≠ 0 := fun h => hres (List.length_eq_zero.mp h)
    exact abs_roundPct_sum _ _ _ _ hn (by omega)

/-- Witness for C8 on a concrete comment list and a concrete record list. -/
theorem sentiment_percentages_sum_100_witness :
    |(analyzeComments (fun _ _ => { pos := 0, neu := 0, neg := 0, compound := 0 })
        ["ab"]).positive_percentage +
      (analyzeComments (fun _ _ => { pos := 0, neu := 0, neg := 0, compound := 0 })
        ["ab"]).neutral_percentage +
      (analyzeComments (fun _ _ => { pos := 0, neu := 0, neg := 0, compound := 0 })
        ["ab"]).negative_percentage - 100| ≤ 1/10 ∧
    (∃ o, processLLMResults [llmRecPos, llmRecNeg] = some o ∧
      |o.positive_percentage + o.neutral_percentage +
        o.negative_percentage - 100| ≤ 1/10) :=
  ⟨sentiment_percentages_sum_100.1 _ ["ab"] (by decide),
   sentiment_percentages_sum_100.2 [llmRecPos, llmRecNeg] (by simp)
     (by
       intro r hr
       simp only [List.mem_cons, List.mem_singleton, List.not_mem_nil, or_false] at hr
       rcases hr with rfl | rfl <;> simp [llmRecPos, llmRecNeg])⟩

/-- C5 counterexample: on one positive record with confidence 0.2 and one
negative record with confidence 1.0 the code computes overall rating 3.0
(the confidences play no part), while the confidence-weighted version of
the lexicon formula gives 2.2. -/
theorem llm_rating_not_confidence_weighted :
    (∃ o, processLLMResults [llmRecPos, llmRecNeg] = some o ∧
      o.overall_rating = 3) ∧
    specConfidenceWeightedRating [llmRecPos, llmRecNeg] = 11/5 ∧
    (3 : ℚ) ≠ 11/5 := by
  refine ⟨?_, ?_, by norm_num⟩
  · unfold processLLMResults
    dsimp only
    rw [if_neg (by simp)]
    refine ⟨_, rfl, ?_⟩
    dsimp only
    have hcpos : ([llmRecPos, llmRecNeg].countP fun r => r.sentiment == "positive") = 1 := by
      simp [llmRecPos, llmRecNeg]
    have hcneu : ([llmRecPos, llmRecNeg].countP fun r => r.sentiment == "neutral") = 0 := by
      simp [llmRecPos, llmRecNeg]
    rw [hcpos, hcneu]
    rw [roundTo_eval 1 _ 30 (by norm_num)]
    norm_num
  · unfold specConfidenceWeightedRating
    dsimp only
    simp only [List.map_cons, List.map_nil, List.sum_cons, List.sum_nil,
      List.length_cons, List.length_nil]
    norm_num [llmRecPos, llmRecNeg]
    rw [if_neg (by decide)]
    rw [min_eq_right (by norm_num), max_eq_right (by norm_num)]
    norm_num

/-- C5 (amended): after all batches complete, the aggregate overall rating
is 1 + 0.04 x positive% + 0.02 x neutral%, which coincides with the lexicon
formula clamp(3 + 2 x mean, 1, 5) when each comment contributes the
unweighted class value +1, 0 or -1; the confidences do not enter the
rating (they only feed the separate average_confidence field). -/
theorem llm_rating_unweighted_class_counts (results : List SentimentRecord)
    (hres : results ≠ [])
    (hmem : ∀ r ∈ results, r.sentiment = "positive" ∨ r.sentiment = "neutral" ∨
      r.sentiment = "negative") :
    ∃ o, processLLMResults results = some o ∧
      o.overall_rating = roundTo 1 (max 1 (min 5 (3 +
        (((results.countP fun r => r.sentiment == "positive") : ℚ) -
          ((results.countP fun r => r.sentiment == "negative") : ℚ)) /
          (results.length : ℚ) * 2))) := by
  unfold processLLMResults
  dsimp only
  rw [if_neg hres]
  refine ⟨_, rfl, ?_⟩
  dsimp only
  have hn0 : results.length ≠ 0 := fun h => hres (List.length_eq_zero.mp h)
  have hn : (0 : ℚ) < (results.length : ℚ) := by
    exact_mod_cast Nat.pos_of_ne_zero hn0
  have hpart := countP_sentiment_partition results hmem
  have hPle : (results.countP fun r => r.sentiment == "positive") ≤ results.length :=
    List.countP_le_length _
  have hNle : (results.countP fun r => r.sentiment == "negative") ≤ results.length :=
    List.countP_le_length _
  have hPcast : ((results.countP fun r => r.sentiment == "positive") : ℚ) ≤
      (results.length : ℚ) := by exact_mod_cast hPle
  have hNcast : ((results.countP fun r => r.sentiment == "negative") : ℚ) ≤
      (results.length : ℚ) := by exact_mod_cast hNle
  have hP0 : (0 : ℚ) ≤ ((results.countP fun r => r.sentiment == "positive") : ℚ) := by
    positivity
  have hN0 : (0 : ℚ) ≤ ((results.countP fun r => r.sentiment == "negative") : ℚ) := by
    positivity
  have hdiv_low : -(1 : ℚ) ≤
      (((results.countP fun r => r.sentiment == "positive") : ℚ) -
        ((results.countP fun r => r.sentiment == "negative") : ℚ)) /
        (results.length : ℚ) := by
    rw [le_div_iff₀ hn]
    linarith
  have hdiv_high :
      (((results.countP fun r => r.sentiment == "positive") : ℚ) -
        ((results.countP fun r => r.sentiment == "negative") : ℚ)) /
        (results.length : ℚ) ≤ 1 := by
    rw [div_le_iff₀ hn]
    linarith
  rw [min_eq_right (by linarith), max_eq_right (by linarith)]
  congr 1
  have hcast : ((results.countP fun r => r.sentiment == "positive") : ℚ) +
      ((results.countP fun r => r.sentiment == "neutral") : ℚ) +
      ((results.countP fun r => r.sentiment == "negative") : ℚ) =
      (results.length : ℚ) := by exact_mod_cast hpart
  field_simp
  ring_nf
  linarith [hcast]

/-- Witness for the amended C5 on a concrete record list. -/
theorem llm_rating_unweighted_witness :
    ∃ o, processLLMResults [llmRecPos, llmRecNeg] = some o ∧
      o.overall_rating = roundTo 1 (max 1 (min 5 (3 +
        ((([llmRecPos, llmRecNeg].countP fun r => r.sentiment == "positive") : ℚ) -
          (([llmRecPos, llmRecNeg].countP fun r => r.sentiment == "negative") : ℚ)) /
          (([llmRecPos, llmRecNeg] : List SentimentRecord).length : ℚ) * 2))) :=
  llm_rating_unweighted_class_counts [llmRecPos, llmRecNeg] (by simp)
    (by
      intro r hr
      simp only [List.mem_cons, List.mem_singleton, List.not_mem_nil, or_false] at hr
      rcases hr with rfl | rfl <;> simp [llmRecPos, llmRecNeg])

/-- C6: every record accepted from a successfully parsed LLM batch has its
sentiment forced into the three classes, replaced by neutral when the
lowercased label is any other value, and its confidence forced into [0,1],
replaced by 0.5 when out of that range. -/
theorem accepted_record_validated (r : RawRecord) (comment : String) (cid : ℕ) :
    ((acceptRecord r comment cid).sentiment = "positive" ∨
      (acceptRecord r comment cid).sentiment = "negative" ∨
      (acceptRecord r comment cid).sentiment = "neutral") ∧
    (0 ≤ (acceptRecord r comment cid).confidence ∧
      (acceptRecord r comment cid).confidence ≤ 1) ∧
    ((strToLower r.sentiment ≠ "positive" ∧ strToLower r.sentiment ≠ "negative" ∧
      strToLower r.sentiment ≠ "neutral") →
      (acceptRecord r comment cid).sentiment = "neutral") ∧
    (¬(0 ≤ r.confidence ∧ r.confidence ≤ 1) →
      (acceptRecord r comment cid).confidence = 0.5) := by
  unfold acceptRecord
  dsimp only
  have h05low : (0 : ℚ) ≤ roundTo 3 0.5 := roundTo_nonneg _ _ (by norm_num)
  have h05high : roundTo 3 (0.5 : ℚ) ≤ 1 := by
    simpa using roundTo_le_of_le 3 (0.5 : ℚ) 1 (by norm_num)
  have h05eq : roundTo 3 (0.5 : ℚ) = 0.5 := by
    rw [roundTo_eval 3 _ 500 (by norm_num)]
    norm_num
  by_cases hs : strToLower r.sentiment ≠ "positive" ∧ strToLower r.sentiment ≠ "negative" ∧
      strToLower r.sentiment ≠ "neutral"
  · rw [if_pos hs]
    by_cases hc : 0 ≤ r.confidence ∧ r.confidence ≤ 1
    · rw [if_neg (not_not_intro hc)]
      exact ⟨Or.inr (Or.inr rfl),
        ⟨roundTo_nonneg _ _ hc.1, by simpa using roundTo_le_of_le 3 _ 1 hc.2⟩,
        fun _ => rfl, fun hbad => absurd hc hbad⟩
    · rw [if_pos hc]
      exact ⟨Or.inr (Or.inr rfl), ⟨h05low, h05high⟩, fun _ => rfl, fun _ => h05eq⟩
  · rw [if_neg hs]
    have hmem : strToLower r.sentiment = "positive" ∨ strToLower r.sentiment = "negative" ∨
        strToLower r.sentiment = "neutral" := by
      by_contra hcon
      push_neg at hcon
      exact hs ⟨hcon.1, hcon.2.1, hcon.2.2⟩
    by_cases hc : 0 ≤ r.confidence ∧ r.confidence ≤ 1
    · rw [if_neg (not_not_intro hc)]
      exact ⟨hmem,
        ⟨roundTo_nonneg _ _ hc.1, by simpa using roundTo_le_of_le 3 _ 1 hc.2⟩,
        fun hbad => absurd hbad hs, fun hbad => absurd hc hbad⟩
    · rw [if_pos hc]
      exact ⟨hmem, ⟨h05low, h05high⟩, fun hbad => absurd hbad hs, fun _ => h05eq⟩

/-- Witness for C6: the unexpected label becomes neutral and the
out-of-range confidence becomes 0.5. -/
theorem accepted_record_validated_witness :
    (acceptRecord rawBad "wow" 1).sentiment = "neutral" ∧
    (acceptRecord rawBad "wow" 1).confidence = 0.5 :=
  ⟨(accepted_record_validated rawBad "wow" 1).2.2.1 (by decide),
   (accepted_record_validated rawBad "wow" 1).2.2.2 (by norm_num [rawBad])⟩

theorem length_mapWithId {α β : Type} (f : ℕ → α → β) (i : ℕ) (l : List α) :
    (mapWithId f i l).length = l.length := by
  induction l generalizing i with
  | nil => rfl
  | cons a l ih => simp [mapWithId, ih]

theorem getElem?_mapWithId {α β : Type} (f : ℕ → α → β) (i k : ℕ) (l : List α) :
    (mapWithId f i l)[k]? = (l[k]?).map (f (i + k)) := by
  induction l generalizing i k with
  | nil => simp [mapWithId]
  | cons a l ih =>
    cases k with
    | zero => simp [mapWithId]
    | succ k =>
      have harith : i + 1 + k = i + (k + 1) := by omega
      simp only [mapWithId, List.getElem?_cons_succ, ih, harith]

theorem fallbackSentiment_source (av : Bool) (pol : String → SentimentScores)
    (c : String) (cid : ℕ) : isFallbackSource (fallbackSentiment av pol c cid).source := by
  cases av <;> simp [fallbackSentiment, isFallbackSource]

theorem fallbackSentiment_text (av : Bool) (pol : String → SentimentScores)
    (c : String) (cid : ℕ) : (fallbackSentiment av pol c cid).comment_text = c := by
  cases av <;> rfl

theorem parseGeminiResponse_spec (av : Bool) (pol : String → SentimentScores)
    (parsed : Option (List RawRecord)) (batch : List String) (bs : ℕ)
    (hcov : ∀ rs, parsed = some rs → ∀ i, i < batch.length →
      (rs.find? fun r => r.comment_id == mkCommentId (bs + i + 1)).isSome) :
    (parseGeminiResponse av pol parsed batch bs).length = batch.length ∧
    ∀ (k : ℕ) (c : String), batch[k]? = some c →
      ∃ rec : SentimentRecord, (parseGeminiResponse av pol parsed batch bs)[k]? = some rec ∧
        rec.comment_text = c ∧
        (match parsed with
         | some _ => rec.source = "gemini_api"
         | none => isFallbackSource rec.source) := by
  cases parsed with
  | none =>
    simp only [parseGeminiResponse]
    refine ⟨length_mapWithId _ _ _, ?_⟩
    intro k c hk
    rw [getElem?_mapWithId, hk]
    exact ⟨_, rfl, fallbackSentiment_text _ _ _ _, fallbackSentiment_source _ _ _ _⟩
  | some rs =>
    simp only [parseGeminiResponse]
    refine ⟨length_mapWithId _ _ _, ?_⟩
    intro k c hk
    have hklt : k < batch.length := (List.getElem?_eq_some.mp hk).1
    have hfind := hcov rs rfl k hklt
    obtain ⟨r, hr⟩ := Option.isSome_iff_exists.mp hfind
    rw [getElem?_mapWithId, hk]
    simp only [Nat.zero_add, hr, Option.map_some]
    exact ⟨_, rfl, rfl, rfl⟩

theorem geminiResults_spec (av : Bool) (pol : String → SentimentScores)
    (oracle : ℕ → GeminiOutcome) :
    ∀ (n : ℕ) (comments : List String) (bs : ℕ), comments.length ≤ n →
    (∀ j rs, 10 * j < comments.length →
      oracle (bs + 10 * j) = GeminiOutcome.ok (some rs) →
      ∀ i, i < 10 → 10 * j + i < comments.length →
        (rs.find? fun r => r.comment_id == mkCommentId (bs + 10 * j + i + 1)).isSome) →
    (geminiResults av pol oracle comments bs).length = comments.length ∧
    ∀ (k : ℕ) (c : String), comments[k]? = some c →
      ∃ rec : SentimentRecord,
        (geminiResults av pol oracle comments bs)[k]? = some rec ∧
        rec.comment_text = c ∧ sourceSpec (oracle (bs + 10 * (k / 10))) rec.source := by
  intro n
  induction n with
  | zero =>
    intro comments bs hlen _
    have hnil : comments = [] := List.length_eq_zero.mp (Nat.le_zero.mp hlen)
    subst hnil
    refine ⟨by simp [geminiResults], ?_⟩
    intro k c hk
    simp at hk
  | succ n ih =>
    intro comments bs hlen hcov
    cases comments with
    | nil =>
      refine ⟨by simp [geminiResults], ?_⟩
      intro k c hk
      simp at hk
    | cons c0 rest =>
      have hscov : ∀ j rs, 10 * j < ((c0 :: rest).drop 10).length →
          oracle (bs + 10 + 10 * j) = GeminiOutcome.ok (some rs) →
          ∀ i, i < 10 → 10 * j + i < ((c0 :: rest).drop 10).length →
            (rs.find? fun r =>
              r.comment_id == mkCommentId (bs + 10 + 10 * j + i + 1)).isSome := by
        intro j rs hj hrs i hi hib
        have harith1 : bs + 10 + 10 * j = bs + 10 * (j + 1) := by ring
        rw [harith1] at hrs
        simp only [List.length_drop, List.length_cons] at hj hib
        have hstep := hcov (j + 1) rs (by simp; omega) hrs i hi (by simp; omega)
        have harith2 : bs + 10 * (j + 1) + i + 1 = bs + 10 + 10 * j + i + 1 := by ring
        rw [harith2] at hstep
        exact hstep
      have htail := ih ((c0 :: rest).drop 10) (bs + 10)
        (by simp only [List.length_drop, List.length_cons] at hlen ⊢; omega) hscov
      obtain ⟨htlen, htel⟩ := htail
      rcases horacle : oracle bs with st | _ | parsed
      · -- http error: whole batch falls back
        have hstep : geminiResults av pol oracle (c0 :: rest) bs =
            mapWithId (fun i comment =>
              fallbackSentiment av pol comment (bs + i + 1)) 0 ((c0 :: rest).take 10) ++
            geminiResults av pol oracle ((c0 :: rest).drop 10) (bs + 10) := by
          simp only [geminiResults, horacle]
        constructor
        · rw [hstep, List.length_append, length_mapWithId, htlen]
          simp [List.length_take, List.length_drop]
          omega
        · intro k c hk
          have hklen : k < (c0 :: rest).length := (List.getElem?_eq_some.mp hk).1
          rw [hstep]
          by_cases hk10 : k < 10
          · have hkB : k < (mapWithId (fun i comment =>
                fallbackSentiment av pol comment (bs + i + 1)) 0
                ((c0 :: rest).take 10)).length := by
              rw [length_mapWithId]
              simp only [List.length_take, List.length_cons]
              simp only [List.length_cons] at hklen
              omega
            rw [List.getElem?_append, if_pos hkB]
            have hbk : ((c0 :: rest).take 10)[k]? = some c := by
              rw [List.getElem?_take, if_pos hk10]
              exact hk
            rw [getElem?_mapWithId, hbk]
            refine ⟨_, rfl, fallbackSentiment_text _ _ _ _, ?_⟩
            have hdiv : k / 10 = 0 := Nat.div_eq_of_lt hk10
            rw [hdiv]
            simp only [Nat.mul_zero, Nat.add_zero]
            rw [horacle]
            exact fallbackSentiment_source _ _ _ _
          · push_neg at hk10
            have hBlen : (mapWithId (fun i comment =>
                fallbackSentiment av pol comment (bs + i + 1)) 0
                ((c0 :: rest).take 10)).length = 10 := by
              rw [length_mapWithId]
              simp only [List.length_take, List.length_cons]
              simp only [List.length_cons] at hklen
              omega
            rw [List.getElem?_append_right (by rw [hBlen]; omega), hBlen]
            have htk : ((c0 :: rest).drop 10)[k - 10]? = some c := by
              rw [List.getElem?_drop, show 10 + (k - 10) = k by omega]
              exact hk
            obtain ⟨rec, hrec, htext, hsrc⟩ := htel (k - 10) c htk
            refine ⟨rec, hrec, htext, ?_⟩
            rw [show bs + 10 + 10 * ((k - 10) / 10) = bs + 10 * (k / 10) by omega] at hsrc
            exact hsrc
      · -- no candidates: whole batch falls back
        have hstep : geminiResults av pol oracle (c0 :: rest) bs =
            mapWithId (fun i comment =>
              fallbackSentiment av pol comment (bs + i + 1)) 0 ((c0 :: rest).take 10) ++
            geminiResults av pol oracle ((c0 :: rest).drop 10) (bs + 10) := by
          simp only [geminiResults, horacle]
        constructor
        · rw [hstep, List.length_append, length_mapWithId, htlen]
          simp [List.length_take, List.length_drop]
          omega
        · intro k c hk
          have hklen : k < (c0 :: rest).length := (List.getElem?_eq_some.mp hk).1
          rw [hstep]
          by_cases hk10 : k < 10
          · have hkB : k < (mapWithId (fun i comment =>
                fallbackSentiment av pol comment (bs + i + 1)) 0
                ((c0 :: rest).take 10)).length := by
              rw [length_mapWithId]
              simp only [List.length_take, List.length_cons]
              simp only [List.length_cons] at hklen
              omega
            rw [List.getElem?_append, if_pos hkB]
            have hbk : ((c0 :: rest).take 10)[k]? = some c := by
              rw [List.getElem?_take, if_pos hk10]
              exact hk
            rw [getElem?_mapWithId, hbk]
            refine ⟨_, rfl, fallbackSentiment_text _ _ _ _, ?_⟩
            have hdiv : k / 10 = 0 := Nat.div_eq_of_lt hk10
            rw [hdiv]
            simp only [Nat.mul_zero, Nat.add_zero]
            rw [horacle]
            exact fallbackSentiment_source _ _ _ _
          · push_neg at hk10
            have hBlen : (mapWithId (fun i comment =>
                fallbackSentiment av pol comment (bs + i + 1)) 0
                ((c0 :: rest).take 10)).length = 10 := by
              rw [length_mapWithId]
              simp only [List.length_take, List.length_cons]
              simp only [List.length_cons] at hklen
              omega
            rw [List.getElem?_append_right (by rw [hBlen]; omega), hBlen]
            have htk : ((c0 :: rest).drop 10)[k - 10]? = some c := by
              rw [List.getElem?_drop, show 10 + (k - 10) = k by omega]
              exact hk
            obtain ⟨rec, hrec, htext, hsrc⟩ := htel (k - 10) c htk
            refine ⟨rec, hrec, htext, ?_⟩
            rw [show bs + 10 + 10 * ((k - 10) / 10) = bs + 10 * (k / 10) by omega] at hsrc
            exact hsrc
      · -- 200 with candidates: the batch goes through the response parser
        have hstep : geminiResults av pol oracle (c0 :: rest) bs =
            parseGeminiResponse av pol parsed ((c0 :: rest).take 10) bs ++
            geminiResults av pol oracle ((c0 :: rest).drop 10) (bs + 10) := by
          simp only [geminiResults, horacle]
        have hbcov : ∀ rs, parsed = some rs → ∀ i, i < ((c0 :: rest).take 10).length →
            (rs.find? fun r => r.comment_id == mkCommentId (bs + i + 1)).isSome := by
          intro rs hrs i hilt
          simp only [List.length_take, List.length_cons, lt_min_iff] at hilt
          have h00 : oracle (bs + 10 * 0) = GeminiOutcome.ok (some rs) := by
            simpa [horacle] using congrArg GeminiOutcome.ok hrs
          have h0 := hcov 0 rs (by simp) h00 i hilt.1 (by simpa using hilt.2)
          simpa using h0
        have hBspec := parseGeminiResponse_spec av pol parsed ((c0 :: rest).take 10) bs hbcov
        constructor
        · rw [hstep, List.length_append, hBspec.1, htlen]
          simp [List.length_take, List.length_drop]
          omega
        · intro k c hk
          have hklen : k < (c0 :: rest).length := (List.getElem?_eq_some.mp hk).1
          rw [hstep]
          by_cases hk10 : k < 10
          · have hkB : k < (parseGeminiResponse av pol parsed
                ((c0 :: rest).take 10) bs).length := by
              rw [hBspec.1]
              simp only [List.length_take, List.length_cons]
              simp only [List.length_cons] at hklen
              omega
            rw [List.getElem?_append, if_pos hkB]
            have hbk : ((c0 :: rest).take 10)[k]? = some c := by
              rw [List.getElem?_take, if_pos hk10]
              exact hk
            obtain ⟨rec, hrec, htext, hsrc⟩ := hBspec.2 k c hbk
            refine ⟨rec, hrec, htext, ?_⟩
            have hdiv : k / 10 = 0 := Nat.div_eq_of_lt hk10
            rw [hdiv]
            simp only [Nat.mul_zero, Nat.add_zero]
            rw [horacle]
            cases parsed with
            | some rs2 => simpa [sourceSpec] using hsrc
            | none => simpa [sourceSpec] using hsrc
          · push_neg at hk10
            have hBlen : (parseGeminiResponse av pol parsed
                ((c0 :: rest).take 10) bs).length = 10 := by
              rw [hBspec.1]
              simp only [List.length_take, List.length_cons]
              simp only [List.length_cons] at hklen
              omega
            rw [List.getElem?_append_right (by rw [hBlen]; omega), hBlen]
            have htk : ((c0 :: rest).drop 10)[k - 10]? = some c := by
              rw [List.getElem?_drop, show 10 + (k - 10) = k by omega]
              exact hk
            obtain ⟨rec, hrec, htext, hsrc⟩ := htel (k - 10) c htk
            refine ⟨rec, hrec, htext, ?_⟩
            rw [show bs + 10 + 10 * ((k - 10) / 10) = bs + 10 * (k / 10) by omega] at hsrc
            exact hsrc

/-- C3: per-batch fallback boundary of analyze_with_gemini.  For every run
in which each batch of 10 comments either fails (non-200 response, missing
candidates, or unparseable JSON) or succeeds with a response carrying a
record for every comment of the batch, the result list has one record per
comment, in order; a comment of a successful batch carries the LLM source
tag and a comment of a failed batch carries a fallback source tag — and no
others, since the two cases are exhaustive. -/
theorem llm_batch_fallback_per_batch (av : Bool) (pol : String → SentimentScores)
    (oracle : ℕ → GeminiOutcome) (comments : List String)
    (hcov : ∀ j rs, 10 * j < comments.length →
      oracle (10 * j) = GeminiOutcome.ok (some rs) →
      ∀ i, i < 10 → 10 * j + i < comments.length →
        (rs.find? fun r => r.comment_id == mkCommentId (10 * j + i + 1)).isSome) :
    (geminiResults av pol oracle comments 0).length = comments.length ∧
    ∀ (k : ℕ) (c : String), comments[k]? = some c →
      ∃ rec : SentimentRecord,
        (geminiResults av pol oracle comments 0)[k]? = some rec ∧
        rec.comment_text = c ∧ sourceSpec (oracle (10 * (k / 10))) rec.source := by
  have hscov : ∀ j rs, 10 * j < comments.length →
      oracle (0 + 10 * j) = GeminiOutcome.ok (some rs) →
      ∀ i, i < 10 → 10 * j + i < comments.length →
        (rs.find? fun r => r.comment_id == mkCommentId (0 + 10 * j + i + 1)).isSome := by
    intro j rs hj hrs i hi hib
    rw [Nat.zero_add] at hrs
    have := hcov j rs hj hrs i hi hib
    simpa using this
  have h := geminiResults_spec av pol oracle comments.length comments 0 le_rfl hscov
  refine ⟨h.1, ?_⟩
  intro k c hk
  obtain ⟨rec, hrec, ht, hsrc⟩ := h.2 k c hk
  refine ⟨rec, hrec, ht, ?_⟩
  rw [Nat.zero_add] at hsrc
  exact hsrc

/-- Witness for C3: a concrete run of two batches where the first fails and
the second succeeds. -/
theorem llm_batch_fallback_witness :
    (geminiResults true (fun _ => { pos := 0, neu := 0, neg := 0, compound := 0 })
        witOracle witComments 0).length = witComments.length ∧
    ∀ (k : ℕ) (c : String), witComments[k]? = some c →
      ∃ rec : SentimentRecord,
        (geminiResults true (fun _ => { pos := 0, neu := 0, neg := 0, compound := 0 })
            witOracle witComments 0)[k]? = some rec ∧
        rec.comment_text = c ∧ sourceSpec (witOracle (10 * (k / 10))) rec.source :=
  llm_batch_fallback_per_batch _ _ _ _ (by
    intro j rs hj hrs i hi hib
    have hlen : witComments.length = 12 := rfl
    rw [hlen] at hj hib
    have hj01 : j = 0 ∨ j = 1 := by omega
    rcases hj01 with rfl | rfl
    · simp [witOracle] at hrs
    · simp only [witOracle] at hrs
      norm_num at hrs
      subst hrs
      have hi2 : i = 0 ∨ i = 1 := by omega
      rcases hi2 with rfl | rfl <;> decide)

theorem recLe_trans : ∀ a b c : Recommendation,
    recLe a b = true → recLe b c = true → recLe a c = true := by
  intro a b c hab hbc
  simp only [recLe, decide_eq_true_eq, keyLex] at hab hbc ⊢
  omega

theorem recLe_total : ∀ a b : Recommendation, (recLe a b || recLe b a) = true := by
  intro a b
  simp only [recLe, Bool.or_eq_true, decide_eq_true_eq, keyLex]
  omega

/-- C4: every list returned by generate_recommendations has at most 6
entries and is sorted in descending lexicographic order of
(priority rank, impact rank) under the fixed rank maps. -/
theorem recommendations_sorted_and_capped (cv : CurrentVideo)
    (chan : Option ChannelData) (trends : List TrendEntry)
    (l : List Recommendation) (h : generateRecommendations cv chan trends = some l) :
    l.length ≤ 6 ∧ l.Pairwise (fun a b => keyLex (recKey b) (recKey a)) := by
  unfold generateRecommendations at h
  cases hp : calculatePerformanceScore cv chan with
  | none =>
    simp [hp] at h
  | some p =>
    rw [hp] at h
    simp only [Option.map_some', Option.some.injEq] at h
    subst h
    constructor
    · rw [List.length_take]
      exact min_le_left _ _
    · have hsorted :=
        List.sorted_mergeSort recLe_trans recLe_total (buildRecommendations cv chan p trends)
      have hsub := List.Pairwise.sublist
        (List.take_sublist 6 ((buildRecommendations cv chan p trends).mergeSort recLe)) hsorted
      exact hsub.imp (fun hab => by simpa [recLe, decide_eq_true_eq] using hab)

/-- Witness for C4 on the initial base_data video with no channel data and
no declining trends. -/
theorem recommendations_sorted_and_capped_witness :
    ∃ l, generateRecommendations baseVideo none [] = some l ∧
      l.length ≤ 6 ∧ l.Pairwise (fun a b => keyLex (recKey b) (recKey a)) :=
  ⟨_, rfl, recommendations_sorted_and_capped baseVideo none [] _ rfl⟩
